import Mathlib

/-!
Verification of the YaTeApruebo risk-rating aggregation workflow.

Shallow embedding of the Python sources:
- `src/agents/analista_riesgos.py`   (class AnalistaRiesgos)
- `src/agents/secretaria_virtual.py` (class SecretariaVirtual, preparar_datos_para_analisis)
- `src/utils/validators.py`          (class DataValidator, validar_sector_empresa)
- `src/services/openai_service.py`   (class OpenAIService: its set of defined methods)
- `src/config/settings.py`           (class Settings: the analysis-relevant fields)

Dynamic Python/JSON data is embedded as the inductive `PyVal`; a Python
expression that can raise is embedded as `Except String α`, the error carrying
the `str(e)` text of the exception.  `await` points on the OpenAI service are
the only external effects of the analysis methods; each such call site is
parameterized by a `GenOutcome` (the call either raised or returned a string).
-/

namespace YaTeApruebo

/-- Embedding of the dynamic (JSON-shaped) Python values the agents pass
around: `None`, `bool`, `int`, `float` (kept as its source lexeme; no claim
computes with floats), `str`, `list`, `dict` (insertion-ordered, unique keys —
the JSON decoder below collapses duplicate keys the way Python does). -/
inductive PyVal where
  | none
  | bool (b : Bool)
  | int (n : Int)
  | float (raw : String)
  | str (s : String)
  | list (xs : List PyVal)
  | dict (kvs : List (String × PyVal))

/-- Key lookup in an embedded dict's association list (first match; the JSON
decoder keeps keys unique, mirroring Python dict insertion semantics). -/
def lookupKey (kvs : List (String × PyVal)) (k : String) : Option PyVal :=
  match kvs with
  | [] => Option.none
  | (k0, v0) :: rest => if k0 = k then some v0 else lookupKey rest k

/-- `v.getKey? k`: the value under key `k` when `v` is a dict. -/
def PyVal.getKey? (v : PyVal) (k : String) : Option PyVal :=
  match v with
  | .dict kvs => lookupKey kvs k
  | _ => Option.none

/-- Python `str.isspace` / regex `\s` membership for one character
(ASCII whitespace plus the common Unicode whitespace code points). -/
def pyIsSpace (c : Char) : Bool :=
  c = ' ' ∨ c = '\t' ∨ c = '\n' ∨ c = '\r' ∨ c = '\x0b' ∨ c = '\x0c' ∨
  c.val = 0x85 ∨ c.val = 0xa0 ∨ c.val = 0x1680 ∨
  (0x2000 ≤ c.val ∧ c.val ≤ 0x200a) ∨
  c.val = 0x2028 ∨ c.val = 0x2029 ∨ c.val = 0x202f ∨ c.val = 0x205f ∨ c.val = 0x3000

/-- Python `str.strip()` on a character list. -/
def pyStripList (cs : List Char) : List Char :=
  ((cs.dropWhile pyIsSpace).reverse.dropWhile pyIsSpace).reverse

/-- Python `str.strip()`. -/
def pyStrip (s : String) : String :=
  ⟨pyStripList s.data⟩

/-- Is every character of the string whitespace (so `s.strip() == ""`)?  -/
def whitespaceOnly (s : String) : Bool :=
  s.data.all pyIsSpace

/-- Decimal digits of `n` (most significant first); structural in the fuel so
it reduces definitionally. -/
def natDigitsAux : Nat → Nat → List Char
  | 0, _ => []
  | fuel + 1, n => if n = 0 then [] else natDigitsAux fuel (n / 10) ++ [Char.ofNat (48 + n % 10)]

/-- Decimal rendering of a natural number. -/
def natDecimal (n : Nat) : String :=
  if n = 0 then "0" else ⟨natDigitsAux (n + 1) n⟩

/-- Python `str(i)` for an int. -/
def intDecimal (i : Int) : String :=
  match i with
  | .ofNat n => natDecimal n
  | .negSucc n => "-" ++ natDecimal (n + 1)

mutual

/-- `True`/`False`/`None`/decimal/quoted rendering used by Python `repr`,
which `str()` (and hence every f-string interpolation of a non-`str` value)
delegates to for containers.  String quoting keeps the simple single-quote
form; no claim exercises Python's quote-escaping corner cases. -/
def PyVal.reprStr : PyVal → String
  | .none => "None"
  | .bool true => "True"
  | .bool false => "False"
  | .int n => intDecimal n
  | .float raw => raw
  | .str s => "\x27" ++ s ++ "\x27"
  | .list xs => "[" ++ reprStrElems xs ++ "]"
  | .dict kvs => "\x7b" ++ reprStrPairs kvs ++ "\x7d"

def reprStrElems : List PyVal → String
  | [] => ""
  | [x] => PyVal.reprStr x
  | x :: xs => PyVal.reprStr x ++ ", " ++ reprStrElems xs

def reprStrPairs : List (String × PyVal) → String
  | [] => ""
  | [(k, v)] => "\x27" ++ k ++ "\x27: " ++ PyVal.reprStr v
  | (k, v) :: kvs => "\x27" ++ k ++ "\x27: " ++ PyVal.reprStr v ++ ", " ++ reprStrPairs kvs

end

/-- Python `str(v)`: the string itself for a `str`, `repr`-style otherwise. -/
def pyStr (v : PyVal) : String :=
  match v with
  | .str s => s
  | _ => PyVal.reprStr v

/-- Python hashability: lists and dicts are unhashable, everything else the
agents handle is hashable. -/
def pyHashable : PyVal → Bool
  | .list _ => false
  | .dict _ => false
  | _ => true

/-- Bool-valued substring test on character lists (Python `in` on two strs). -/
def hasSubstr (needle haystack : List Char) : Bool :=
  haystack.tails.any (fun t => needle.isPrefixOf t)

/-- Python `needle in v` for a string literal `needle`: key membership for a
dict, element equality for a list, substring for a str, and a `TypeError`
for non-container values (the error text is Python's `str(e)`). -/
def pyInStr (needle : String) (v : PyVal) : Except String Bool :=
  match v with
  | .dict kvs => .ok (kvs.any (fun kv => kv.1 = needle))
  | .list xs => .ok (xs.any (fun x => match x with | .str s => s = needle | _ => false))
  | .str s => .ok (hasSubstr needle.data s.data)
  | .int _ => .error "argument of type \x27int\x27 is not iterable"
  | .float _ => .error "argument of type \x27float\x27 is not iterable"
  | .bool _ => .error "argument of type \x27bool\x27 is not iterable"
  | .none => .error "argument of type \x27NoneType\x27 is not iterable"

/-- Python `v[k]` with a string key: dict lookup (`KeyError` when absent,
whose `str(e)` is the quoted key) or a `TypeError` on non-dict values. -/
def pyGetItem (v : PyVal) (k : String) : Except String PyVal :=
  match v with
  | .dict kvs =>
      match lookupKey kvs k with
      | some x => .ok x
      | Option.none => .error ("\x27" ++ k ++ "\x27")
  | .list _ => .error "list indices must be integers or slices, not str"
  | .str _ => .error "string indices must be integers"
  | _ => .error "object is not subscriptable"

/-- Python `v.get(k, dflt)` with a string key: total on dicts,
`AttributeError` on every other receiver. -/
def pyDictGet (v : PyVal) (k : String) (dflt : PyVal) : Except String PyVal :=
  match v with
  | .dict kvs => .ok ((lookupKey kvs k).getD dflt)
  | .list _ => .error "\x27list\x27 object has no attribute \x27get\x27"
  | .str _ => .error "\x27str\x27 object has no attribute \x27get\x27"
  | .int _ => .error "\x27int\x27 object has no attribute \x27get\x27"
  | .float _ => .error "\x27float\x27 object has no attribute \x27get\x27"
  | .bool _ => .error "\x27bool\x27 object has no attribute \x27get\x27"
  | .none => .error "\x27NoneType\x27 object has no attribute \x27get\x27"

/-- Python slicing `v[:1500]` as used on `datos[\x27contenido_extraido\x27]`:
prefix for strings and lists, `TypeError` otherwise. -/
def pySlice1500 (v : PyVal) : Except String PyVal :=
  match v with
  | .str s => .ok (.str ⟨s.data.take 1500⟩)
  | .list xs => .ok (.list (xs.take 1500))
  | _ => .error "unhashable type: \x27slice\x27"

/-! ### `json.loads`

A recursive-descent decoder for the JSON text the agents feed to Python's
`json.loads` (strict mode, the default): objects, arrays, strings with the
standard escapes, numbers (ints kept exact, anything with a fraction or
exponent kept as a `float` lexeme), `true`/`false`/`null`, and the CPython
extensions `NaN`/`Infinity`/`-Infinity`.  Duplicate object keys collapse to
the last value, as in Python.  Lone surrogate `\uXXXX` escapes — which CPython
would keep as unpaired surrogates — are rejected here (Lean `Char` cannot hold
them); no claim goes near that corner. -/

/-- JSON inter-token whitespace (`json.loads` skips exactly these). -/
def jsonSkipWs (cs : List Char) : List Char :=
  cs.dropWhile (fun c => c = ' ' ∨ c = '\t' ∨ c = '\n' ∨ c = '\r')

/-- Hexadecimal digit value. -/
def hexDigitVal? (c : Char) : Option Nat :=
  if '0' ≤ c ∧ c ≤ '9' then some (c.toNat - '0'.toNat)
  else if 'a' ≤ c ∧ c ≤ 'f' then some (c.toNat - 'a'.toNat + 10)
  else if 'A' ≤ c ∧ c ≤ 'F' then some (c.toNat - 'A'.toNat + 10)
  else Option.none

/-- Four-hex-digit scalar of a `\uXXXX` escape. -/
def hex4? (cs : List Char) : Option (Nat × List Char) :=
  match cs with
  | a :: b :: c :: d :: rest =>
      match hexDigitVal? a, hexDigitVal? b, hexDigitVal? c, hexDigitVal? d with
      | some x, some y, some z, some w => some (((x * 16 + y) * 16 + z) * 16 + w, rest)
      | _, _, _, _ => Option.none
  | _ => Option.none

/-- Body of a JSON string after the opening quote: content and what follows
the closing quote.  Raw control characters are rejected (strict mode); the
standard escapes and `\uXXXX` (with surrogate pairing) are decoded. -/
def jsonStringBody : Nat → List Char → Option (List Char × List Char)
  | 0, _ => Option.none
  | _, [] => Option.none
  | fuel + 1, c :: rest =>
    if c = '"' then some ([], rest)
    else if c = '\\' then
      match rest with
      | [] => Option.none
      | e :: rest2 =>
        let decoded : Option (Char × List Char) :=
          if e = '"' then some ('"', rest2)
          else if e = '\\' then some ('\\', rest2)
          else if e = '/' then some ('/', rest2)
          else if e = 'b' then some ('\x08', rest2)
          else if e = 'f' then some ('\x0c', rest2)
          else if e = 'n' then some ('\n', rest2)
          else if e = 'r' then some ('\r', rest2)
          else if e = 't' then some ('\t', rest2)
          else if e = 'u' then
            match hex4? rest2 with
            | some (n, rest3) =>
              if 0xd800 ≤ n ∧ n ≤ 0xdbff then
                match rest3 with
                | '\\' :: 'u' :: rest4 =>
                  match hex4? rest4 with
                  | some (m, rest5) =>
                    if 0xdc00 ≤ m ∧ m ≤ 0xdfff then
                      some (Char.ofNat (0x10000 + (n - 0xd800) * 0x400 + (m - 0xdc00)), rest5)
                    else Option.none
                  | Option.none => Option.none
                | _ => Option.none
              else if 0xdc00 ≤ n ∧ n ≤ 0xdfff then Option.none
              else some (Char.ofNat n, rest3)
            | Option.none => Option.none
          else Option.none
        match decoded with
        | some (ch, restNext) =>
            (jsonStringBody fuel restNext).map (fun p => (ch :: p.1, p.2))
        | Option.none => Option.none
    else if c.val < 0x20 then Option.none
    else (jsonStringBody fuel rest).map (fun p => (c :: p.1, p.2))

/-- Decimal value of a digit list. -/
def digitsToNat (ds : List Char) : Nat :=
  ds.foldl (fun acc c => acc * 10 + (c.toNat - '0'.toNat)) 0

/-- A JSON number (or `NaN`/`Infinity`/`-Infinity`): integers become
`PyVal.int`; a fraction or exponent part makes the token a `PyVal.float`
carrying its source lexeme. -/
def jsonNumber (cs : List Char) : Option (PyVal × List Char) :=
  match cs with
  | 'N' :: 'a' :: 'N' :: rest => some (.float "NaN", rest)
  | 'I' :: 'n' :: 'f' :: 'i' :: 'n' :: 'i' :: 't' :: 'y' :: rest => some (.float "Infinity", rest)
  | '-' :: 'I' :: 'n' :: 'f' :: 'i' :: 'n' :: 'i' :: 't' :: 'y' :: rest =>
      some (.float "-Infinity", rest)
  | _ =>
    let (neg, cs1) := match cs with | '-' :: r => (true, r) | _ => (false, cs)
    let (intDs, rest1) := cs1.span Char.isDigit
    if intDs = [] then Option.none
    else if intDs.length > 1 ∧ intDs.head? = some '0' then Option.none
    else
      let (fracDs, rest2) :=
        match rest1 with
        | '.' :: r => (r.takeWhile Char.isDigit, r.dropWhile Char.isDigit)
        | _ => ([], rest1)
      let hasFrac := match rest1 with | '.' :: _ => true | _ => false
      if hasFrac && fracDs.isEmpty then Option.none
      else
        let (expChars, rest3, hasExp, expOk) :=
          match rest2 with
          | e :: r =>
            if e = 'e' ∨ e = 'E' then
              let (sgn, r1) :=
                match r with
                | s :: r1 => if s = '+' ∨ s = '-' then ([s], r1) else ([], s :: r1)
                | [] => (([] : List Char), ([] : List Char))
              let (eds, r2) := r1.span Char.isDigit
              (e :: (sgn ++ eds), r2, true, !eds.isEmpty)
            else ([], rest2, false, true)
          | [] => ([], rest2, false, true)
        if !expOk then Option.none
        else if hasFrac || hasExp then
          let lexeme : List Char :=
            (if neg then ['-'] else []) ++ intDs ++
            (if hasFrac then '.' :: fracDs else []) ++ expChars
          some (.float ⟨lexeme⟩, rest3)
        else
          let n : Int := Int.ofNat (digitsToNat intDs)
          some (.int (if neg then -n else n), rest3)

mutual

/-- One JSON value starting at `cs` (leading whitespace allowed); yields the
decoded value and the remaining input. -/
def jsonValue : Nat → List Char → Option (PyVal × List Char)
  | 0, _ => Option.none
  | fuel + 1, cs =>
    match jsonSkipWs cs with
    | [] => Option.none
    | c :: rest =>
      if c = '\x7b' then jsonMembers fuel rest [] true
      else if c = '[' then jsonElems fuel rest [] true
      else if c = '"' then (jsonStringBody fuel rest).map (fun p => (PyVal.str ⟨p.1⟩, p.2))
      else
        match c :: rest with
        | 't' :: 'r' :: 'u' :: 'e' :: r => some (.bool true, r)
        | 'f' :: 'a' :: 'l' :: 's' :: 'e' :: r => some (.bool false, r)
        | 'n' :: 'u' :: 'l' :: 'l' :: r => some (.none, r)
        | other => jsonNumber other

/-- Members of a JSON object after the opening brace; `acc` carries the pairs
decoded so far (duplicate keys overwrite in place, as Python dicts do). -/
def jsonMembers : Nat → List Char → List (String × PyVal) → Bool → Option (PyVal × List Char)
  | 0, _, _, _ => Option.none
  | fuel + 1, cs, acc, first =>
    match jsonSkipWs cs with
    | [] => Option.none
    | c :: rest =>
      if c = '\x7d' ∧ first then some (.dict acc, rest)
      else if c = '"' then
        match jsonStringBody fuel rest with
        | Option.none => Option.none
        | some (key, rest1) =>
          match jsonSkipWs rest1 with
          | ':' :: rest2 =>
            match jsonValue fuel rest2 with
            | Option.none => Option.none
            | some (v, rest3) =>
              let acc1 :=
                if acc.any (fun kv => kv.1 = String.mk key)
                then acc.map (fun kv => if kv.1 = String.mk key then (kv.1, v) else kv)
                else acc ++ [(String.mk key, v)]
              match jsonSkipWs rest3 with
              | '\x7d' :: rest4 => some (.dict acc1, rest4)
              | ',' :: rest4 => jsonMembers fuel rest4 acc1 false
              | _ => Option.none
          | _ => Option.none
      else Option.none

/-- Elements of a JSON array after the opening bracket. -/
def jsonElems : Nat → List Char → List PyVal → Bool → Option (PyVal × List Char)
  | 0, _, _, _ => Option.none
  | fuel + 1, cs, acc, first =>
    match jsonSkipWs cs with
    | [] => Option.none
    | c :: rest =>
      if c = ']' ∧ first then some (.list acc, rest)
      else
        match jsonValue fuel (c :: rest) with
        | Option.none => Option.none
        | some (v, rest1) =>
          match jsonSkipWs rest1 with
          | ']' :: rest2 => some (.list (acc ++ [v]), rest2)
          | ',' :: rest2 => jsonElems fuel rest2 (acc ++ [v]) false
          | _ => Option.none

end

/-- `json.loads(s)`: decode one JSON document, requiring only whitespace after
it; a failure stands for `json.JSONDecodeError`, whose `str(e)` text (line and
column bookkeeping) is abstracted to a fixed message. -/
def jsonLoads (s : String) : Except String PyVal :=
  match jsonValue (2 * s.data.length + 8) s.data with
  | some (v, rest) =>
      if jsonSkipWs rest = [] then .ok v
      else .error "Extra data"
  | Option.none => .error "Expecting value"

/-! ### Settings (src/config/settings.py)

Environment-driven fields are modeled with their source defaults; the fields
the analysis workflow reads are the ones kept. -/

/-- The analysis-relevant configuration (`Settings`, src/config/settings.py
lines 14-53), with the source's environment-variable defaults. -/
structure Settings where
  RISK_LEVELS : List String := ["BASICO", "INTERMEDIO", "AVANZADO"]
  DEFAULT_RISK_LEVEL : String := "INTERMEDIO"
  INPUT_DIR : String := "./data/input"
  OUTPUT_DIR : String := "./data/output"

/-- `settings` with every environment variable unset (the module-level
defaults). -/
def defaultSettings : Settings := {}

/-! ### The OpenAI service boundary (src/services/openai_service.py) -/

/-- One awaited service call, as seen by the caller: it either raised an
exception (`raised` carries the `str(e)` text) or returned a string. -/
inductive GenOutcome where
  | raised (msg : String)
  | returned (text : String)

/-- The methods the class body of `OpenAIService` defines
(src/services/openai_service.py lines 14-309).  `generar_respuesta_json`,
which every structured-analysis method of `AnalistaRiesgos` invokes, is not
among them. -/
def openAIServiceMethodNames : List String :=
  ["__init__", "generar_respuesta", "generar_respuesta_streaming",
   "analizar_documento_con_contexto", "validar_conexion",
   "cambiar_configuracion", "obtener_estadisticas_uso"]

/-- The outcome of evaluating `self.openai_service.generar_respuesta_json(...)`
in the running program: Python attribute lookup consults the class body
(`openAIServiceMethodNames`); the name is absent, so the expression raises
`AttributeError` before any network call.  The `then` branch is vacuous — it
exists only so the definition is literally the lookup. -/
def generarRespuestaJsonCall : GenOutcome :=
  if "generar_respuesta_json" ∈ openAIServiceMethodNames
  then GenOutcome.returned ""
  else GenOutcome.raised
    "\x27OpenAIService\x27 object has no attribute \x27generar_respuesta_json\x27"

/-! ### Category analyses (src/agents/analista_riesgos.py lines 124-575)

The five `_analizar_*` methods are textual near-copies differing only in the
category name, the field names of the degraded payload, whether the prompt
interpolates the sliced document text, and the payload of the final
`except Exception` branch (solvencia alone returns a bare error dict there,
lines 304-310).  They are embedded as one function over a descriptor carrying
exactly those differences. -/

/-- The per-category differences of the five `_analizar_*` methods. -/
structure CategoriaDesc where
  categoria : String
  campoDatos : String
  datosVacios : PyVal
  campoTexto : String
  campoRiesgo : String
  campoLista : String
  usaContenido : Bool
  resultadoGenerico : String → PyVal

/-- `_analizar_liquidez` (lines 124-220): fields `ratios`/`interpretacion`/
`riesgo_liquidez`/`observaciones`; generic branch note `Error inesperado:`. -/
def descLiquidez : CategoriaDesc where
  categoria := "liquidez"
  campoDatos := "ratios"
  datosVacios := .dict []
  campoTexto := "interpretacion"
  campoRiesgo := "riesgo_liquidez"
  campoLista := "observaciones"
  usaContenido := true
  resultadoGenerico := fun e => .dict
    [("ratios", .dict []),
     ("interpretacion", .str ("Error inesperado: " ++ e)),
     ("riesgo_liquidez", .str "MEDIO"),
     ("observaciones", .list [.str "Error en procesamiento"])]

/-- `_analizar_solvencia` (lines 222-310): fields `ratios`/`evaluacion`/
`riesgo_insolvencia`/`recomendaciones`; its `except Exception` branch (lines
304-310) returns the bare payload `\x7b"error": str(e)\x7d`. -/
def descSolvencia : CategoriaDesc where
  categoria := "solvencia"
  campoDatos := "ratios"
  datosVacios := .dict []
  campoTexto := "evaluacion"
  campoRiesgo := "riesgo_insolvencia"
  campoLista := "recomendaciones"
  usaContenido := true
  resultadoGenerico := fun e => .dict [("error", .str e)]

/-- `_analizar_rentabilidad` (lines 312-399): fields `indicadores`/`analisis`/
`nivel_rentabilidad`/`observaciones`; generic branch note `Error técnico:`. -/
def descRentabilidad : CategoriaDesc where
  categoria := "rentabilidad"
  campoDatos := "indicadores"
  datosVacios := .dict []
  campoTexto := "analisis"
  campoRiesgo := "nivel_rentabilidad"
  campoLista := "observaciones"
  usaContenido := true
  resultadoGenerico := fun e => .dict
    [("indicadores", .dict []),
     ("analisis", .str ("Error técnico: " ++ e)),
     ("nivel_rentabilidad", .str "MEDIO"),
     ("observaciones", .list [.str "Error en procesamiento"])]

/-- `_analizar_eficiencia` (lines 401-488): fields `indicadores`/`evaluacion`/
`nivel_eficiencia`/`recomendaciones`; generic branch note `Error técnico:`. -/
def descEficiencia : CategoriaDesc where
  categoria := "eficiencia"
  campoDatos := "indicadores"
  datosVacios := .dict []
  campoTexto := "evaluacion"
  campoRiesgo := "nivel_eficiencia"
  campoLista := "recomendaciones"
  usaContenido := true
  resultadoGenerico := fun e => .dict
    [("indicadores", .dict []),
     ("evaluacion", .str ("Error técnico: " ++ e)),
     ("nivel_eficiencia", .str "MEDIO"),
     ("recomendaciones", .list [.str "Error en procesamiento"])]

/-- `_analizar_riesgo_sectorial` (lines 490-575): fields
`riesgos_identificados` (an empty list, not an empty dict)/`evaluacion`/
`nivel_riesgo`/`mitigaciones`; its prompt interpolates only the company name
and sector, not the extracted document text. -/
def descSectorial : CategoriaDesc where
  categoria := "sectorial"
  campoDatos := "riesgos_identificados"
  datosVacios := .list []
  campoTexto := "evaluacion"
  campoRiesgo := "nivel_riesgo"
  campoLista := "mitigaciones"
  usaContenido := false
  resultadoGenerico := fun e => .dict
    [("riesgos_identificados", .list []),
     ("evaluacion", .str ("Error técnico: " ++ e)),
     ("nivel_riesgo", .str "MEDIO"),
     ("mitigaciones", .list [.str "Error en procesamiento"])]

/-- The five category descriptors, in the order the orchestrator runs them. -/
def categorias : List CategoriaDesc :=
  [descLiquidez, descSolvencia, descRentabilidad, descEficiencia, descSectorial]

/-- The degraded payload of the empty-response branch (`if not response or
response.strip() == ""`). -/
def resultadoVacio (d : CategoriaDesc) : PyVal :=
  .dict [(d.campoDatos, d.datosVacios),
         (d.campoTexto,
          .str "No se pudo realizar el análisis por falta de respuesta del modelo"),
         (d.campoRiesgo, .str "MEDIO"),
         (d.campoLista, .list [.str "Error en análisis automático"])]

/-- The degraded payload of the embedded-`"error"`-key branch. -/
def resultadoErrorEmbebido (d : CategoriaDesc) (err : PyVal) : PyVal :=
  .dict [(d.campoDatos, d.datosVacios),
         (d.campoTexto, .str ("Error en análisis: " ++ pyStr err)),
         (d.campoRiesgo, .str "MEDIO"),
         (d.campoLista, .list [.str "Error en procesamiento"])]

/-- The degraded payload of the `json.JSONDecodeError` branch. -/
def resultadoFormatoInvalido (d : CategoriaDesc) : PyVal :=
  .dict [(d.campoDatos, d.datosVacios),
         (d.campoTexto, .str "Error en formato de respuesta del modelo de IA"),
         (d.campoRiesgo, .str "MEDIO"),
         (d.campoLista, .list [.str "Respuesta inválida del modelo"])]

/-- The `\x7b"categoria": ..., "resultado": ..., "timestamp": ...\x7d`
envelope every branch of a category analysis returns. -/
def envolver (d : CategoriaDesc) (now : String) (res : PyVal) : PyVal :=
  .dict [("categoria", .str d.categoria), ("resultado", res), ("timestamp", .str now)]

/-- The body of a category analysis from the service call onwards (the whole
`try` of `_analizar_*` given the call's outcome): empty/whitespace check,
`json.loads`, `"error" in analisis` (which for non-containers raises a
`TypeError` caught by the generic `except`), the `logger` f-string subscript
`analisis["error"]` (a `TypeError` for lists/strs, likewise caught), then
either the embedded-error payload or the parsed payload, with
`json.JSONDecodeError` and `Exception` handlers as in the source. -/
def analizarCategoriaNucleo (d : CategoriaDesc) (now : String) (gen : GenOutcome) : PyVal :=
  match gen with
  | .raised e => envolver d now (d.resultadoGenerico e)
  | .returned response =>
    if response = "" ∨ pyStrip response = "" then envolver d now (resultadoVacio d)
    else
      match jsonLoads response with
      | .error _ => envolver d now (resultadoFormatoInvalido d)
      | .ok analisis =>
        match pyInStr "error" analisis with
        | .error e => envolver d now (d.resultadoGenerico e)
        | .ok true =>
          match pyGetItem analisis "error" with
          | .error e => envolver d now (d.resultadoGenerico e)
          | .ok _ =>
            match pyDictGet analisis "error" (.str "Desconocido") with
            | .error e => envolver d now (d.resultadoGenerico e)
            | .ok errv => envolver d now (resultadoErrorEmbebido d errv)
        | .ok false => envolver d now analisis

/-- A full `_analizar_*` method: the prompt f-string is rendered before the
`try`, so its subscripts `datos["empresa"]["nombre"]`, `...["sector"]` and
(except for sectorial) `datos["contenido_extraido"][:1500]` can raise out of
the method; the prompt's text itself is opaque to every claim and is not
reconstructed, and the interpolations are evaluated in one fixed order (the
source orders them slightly differently per category, which can only change
*which* `KeyError` text escapes on malformed data — no claim depends on
that).  The service-call outcome is the `gen` parameter. -/
def analizarCategoria (d : CategoriaDesc) (datos : PyVal) (now : String)
    (gen : GenOutcome) : Except String PyVal := do
  let empresa ← pyGetItem datos "empresa"
  let _nombre ← pyGetItem empresa "nombre"
  let _sector ← pyGetItem empresa "sector"
  if d.usaContenido then
    let contenido ← pyGetItem datos "contenido_extraido"
    let _recorte ← pySlice1500 contenido
    pure (analizarCategoriaNucleo d now gen)
  else
    pure (analizarCategoriaNucleo d now gen)

/-! ### Risk aggregation, recommendations, summary, approver profile
(src/agents/analista_riesgos.py lines 577-764) -/

/-- The fallback rating every failure branch of `_generar_calificacion_riesgo`
builds: configured default level, score 50, one synthetic factor, a
branch-specific justification. -/
def calificacionFallback (cfg : Settings) (factor : String) (justif : String) : PyVal :=
  .dict [("nivel", .str cfg.DEFAULT_RISK_LEVEL),
         ("puntuacion", .int 50),
         ("factores", .list [.str factor]),
         ("justificacion", .str justif)]

/-- `_generar_calificacion_riesgo` (lines 577-648) from its service call
onwards; its prompt only interpolates `analisis_resultados.get(...)` values,
which cannot raise, so the method is total in the call outcome.  On a parsed
payload without an embedded `"error"` key the payload is returned verbatim —
there is no post-parse validation of `nivel`. -/
def generar_calificacion_riesgo (cfg : Settings) (gen : GenOutcome) : PyVal :=
  match gen with
  | .raised e =>
      calificacionFallback cfg "Error en análisis automático" ("Error en el proceso: " ++ e)
  | .returned response =>
    if response = "" ∨ pyStrip response = "" then
      calificacionFallback cfg "Error: No se pudo generar calificación"
        "No se pudo completar la evaluación por falta de respuesta del modelo"
    else
      match jsonLoads response with
      | .error _ =>
          calificacionFallback cfg "Error de formato" "Error en formato de respuesta del modelo"
      | .ok calificacion =>
        match pyInStr "error" calificacion with
        | .error e =>
            calificacionFallback cfg "Error en análisis automático"
              ("Error en el proceso: " ++ e)
        | .ok true =>
          match pyGetItem calificacion "error" with
          | .error e =>
              calificacionFallback cfg "Error en análisis automático"
                ("Error en el proceso: " ++ e)
          | .ok _ =>
            match pyDictGet calificacion "error" (.str "Desconocido") with
            | .error e =>
                calificacionFallback cfg "Error en análisis automático"
                  ("Error en el proceso: " ++ e)
            | .ok errv =>
                calificacionFallback cfg "Error en procesamiento"
                  ("Error en análisis: " ++ pyStr errv)
        | .ok false => calificacion

/-- `_generar_recomendaciones` (lines 650-709) from its service call onwards:
its prompt interpolations are total `str()` conversions.  A parsed list is
returned verbatim; a parsed dict carrying `"error"` gets a 3-item fallback;
any other parsed value is wrapped as `[str(value)]`. -/
def generar_recomendaciones (gen : GenOutcome) : PyVal :=
  match gen with
  | .raised _ =>
      .list [.str "Revisar estados financieros", .str "Monitorear indicadores clave"]
  | .returned response =>
    if response = "" ∨ pyStrip response = "" then
      .list [.str "Revisar estados financieros detalladamente",
             .str "Monitorear indicadores clave de liquidez",
             .str "Evaluar estructura de capital",
             .str "Verificar flujos de efectivo",
             .str "Analizar rentabilidad operativa"]
    else
      match jsonLoads response with
      | .error _ =>
          .list [.str "Revisar estados financieros",
                 .str "Monitorear indicadores clave",
                 .str "Evaluar riesgos identificados"]
      | .ok recomendaciones =>
        let esDictConError :=
          match recomendaciones with
          | .dict kvs => kvs.any (fun kv => kv.1 = "error")
          | _ => false
        if esDictConError then
          .list [.str "Revisar estados financieros detalladamente",
                 .str "Monitorear indicadores clave",
                 .str "Consultar con analista especializado"]
        else
          match recomendaciones with
          | .list xs => .list xs
          | v => .list [.str (pyStr v)]

/-- `_generar_resumen_ejecutivo` (lines 741-764): calls the existing
`generar_respuesta` and returns its text, or the fixed placeholder when the
call raises. -/
def generar_resumen_ejecutivo (gen : GenOutcome) : String :=
  match gen with
  | .raised _ => "Resumen no disponible debido a error en el procesamiento."
  | .returned r => r

/-- The `BASICO` approver profile (lines 716-722). -/
def perfilBasico : PyVal :=
  .dict [("perfil", .str "Analista Junior"),
         ("experiencia_minima", .str "1-2 años"),
         ("especialidad", .str "Análisis básico de estados financieros"),
         ("autoridad", .str "Hasta $100,000 USD"),
         ("supervision", .str "Revisión por muestreo")]

/-- The `INTERMEDIO` approver profile (lines 723-729). -/
def perfilIntermedio : PyVal :=
  .dict [("perfil", .str "Analista Senior"),
         ("experiencia_minima", .str "3-5 años"),
         ("especialidad", .str "Análisis de riesgos y evaluación financiera"),
         ("autoridad", .str "Hasta $500,000 USD"),
         ("supervision", .str "Revisión por analista principal")]

/-- The `AVANZADO` approver profile (lines 730-736). -/
def perfilAvanzado : PyVal :=
  .dict [("perfil", .str "Especialista en Riesgos / Gerente"),
         ("experiencia_minima", .str "5+ años"),
         ("especialidad", .str "Análisis complejo de riesgos y decisiones estratégicas"),
         ("autoridad", .str "Sin límite o comité de riesgos"),
         ("supervision", .str "Revisión por comité ejecutivo")]

/-- The `perfiles` table lookup `perfiles.get(nivel, perfiles["INTERMEDIO"])`
on a hashable key: the three string keys match their rows, anything else
falls back to the `INTERMEDIO` row. -/
def perfilPorNivel (nivel : PyVal) : PyVal :=
  match nivel with
  | .str "BASICO" => perfilBasico
  | .str "INTERMEDIO" => perfilIntermedio
  | .str "AVANZADO" => perfilAvanzado
  | _ => perfilIntermedio

/-- `_determinar_perfil_aprobador` (lines 711-739):
`calificacion.get("nivel", "INTERMEDIO")`, then `perfiles.get(nivel,
perfiles["INTERMEDIO"])`.  `dict.get` hashes its key, so an unhashable
`nivel` (a list or dict) raises `TypeError`; any hashable value goes through
the table lookup. -/
def determinar_perfil_aprobador (calificacion : PyVal) : Except String PyVal := do
  let nivel ← pyDictGet calificacion "nivel" (.str "INTERMEDIO")
  match nivel with
  | .list _ => .error "unhashable type: \x27list\x27"
  | .dict _ => .error "unhashable type: \x27dict\x27"
  | _ => pure (perfilPorNivel nivel)

/-! ### The orchestrator (src/agents/analista_riesgos.py lines 44-122) -/

/-- One outcome per service call the orchestrator's run makes, in source
order: the five category analyses, the global rating, the recommendations
(each via the undefined `generar_respuesta_json` — kept abstract here so the
theorems cover both the hypothetical and the actual behavior) and the
executive summary (via the defined `generar_respuesta`). -/
structure GenEnv where
  liquidez : GenOutcome
  solvencia : GenOutcome
  rentabilidad : GenOutcome
  eficiencia : GenOutcome
  sectorial : GenOutcome
  calificacion : GenOutcome
  recomendaciones : GenOutcome
  resumen : GenOutcome

/-- `_cargar_datos_analisis` (lines 110-122): reads
`INPUT_DIR/{session_id}_datos_analisis.json` from the filesystem (modeled as a
partial map from path to content) and `json.load`s it; both failure cases are
converted to error dicts, not exceptions. -/
def cargar_datos_analisis (cfg : Settings) (fs : String → Option String)
    (session_id : String) : PyVal :=
  match fs (cfg.INPUT_DIR ++ "/" ++ session_id ++ "_datos_analisis.json") with
  | Option.none => .dict [("error", .str "Datos de análisis no encontrados")]
  | some contenido =>
    match jsonLoads contenido with
    | .ok datos => datos
    | .error e => .dict [("error", .str ("Error cargando datos: " ++ e))]

/-- `_guardar_analisis` (lines 766-776) wraps its file write in its own
`try/except` and returns `None` either way: every write outcome is absorbed. -/
def guardar_analisis (wr : Except String Unit) : Unit :=
  match wr with
  | .ok _ => ()
  | .error _ => ()

/-- `analizar_estado_financiero` (lines 44-108): load prepared data, bail out
on its error dict, run the five category analyses, the aggregation,
recommendations, approver profile and summary, assemble `reporte_final`, save
it (absorbing write errors), log the rating level (the f-string subscript
`calificacion_riesgo["nivel"]` — still inside the `try`), and return the
success envelope; any exception along the way is caught by the method's
`except` and becomes `\x7b"error": "Error en análisis: " + str(e)\x7d`. -/
def analizar_estado_financiero (cfg : Settings) (env : GenEnv)
    (fs : String → Option String) (wr : Except String Unit)
    (now session_id : String) : PyVal :=
  let cuerpo : Except String PyVal := do
    let datos := cargar_datos_analisis cfg fs session_id
    let tieneError ← pyInStr "error" datos
    if tieneError then
      pure datos
    else do
      let empresa ← pyGetItem datos "empresa"
      let _nombre ← pyGetItem empresa "nombre"
      let liquidez ← analizarCategoria descLiquidez datos now env.liquidez
      let solvencia ← analizarCategoria descSolvencia datos now env.solvencia
      let rentabilidad ← analizarCategoria descRentabilidad datos now env.rentabilidad
      let eficiencia ← analizarCategoria descEficiencia datos now env.eficiencia
      let sectorial ← analizarCategoria descSectorial datos now env.sectorial
      let calificacion := generar_calificacion_riesgo cfg env.calificacion
      let recomendaciones := generar_recomendaciones env.recomendaciones
      let perfil ← determinar_perfil_aprobador calificacion
      let resumen := generar_resumen_ejecutivo env.resumen
      let reporte := PyVal.dict
        [("session_id", .str session_id),
         ("empresa", empresa),
         ("fecha_analisis", .str now),
         ("analisis_detallado", .dict
           [("liquidez", liquidez), ("solvencia", solvencia),
            ("rentabilidad", rentabilidad), ("eficiencia", eficiencia),
            ("sectorial", sectorial)]),
         ("calificacion_riesgo", calificacion),
         ("recomendaciones", recomendaciones),
         ("perfil_aprobador", perfil),
         ("resumen_ejecutivo", .str resumen)]
      let _guardado := guardar_analisis wr
      let _nivel ← pyGetItem calificacion "nivel"
      pure (PyVal.dict
        [("success", .bool true),
         ("reporte_final", reporte),
         ("siguiente_paso", .str "generar_documento")])
  match cuerpo with
  | .ok v => v
  | .error e => .dict [("error", .str ("Error en análisis: " ++ e))]

/-! ### The methods as they actually run

Every structured-analysis method resolves `generar_respuesta_json` through
attribute lookup; `generarRespuestaJsonCall` is that resolution. -/

/-- `_analizar_liquidez` as the program executes it. -/
def analizar_liquidez (datos : PyVal) (now : String) : Except String PyVal :=
  analizarCategoria descLiquidez datos now generarRespuestaJsonCall

/-- `_analizar_solvencia` as the program executes it. -/
def analizar_solvencia (datos : PyVal) (now : String) : Except String PyVal :=
  analizarCategoria descSolvencia datos now generarRespuestaJsonCall

/-- `_analizar_rentabilidad` as the program executes it. -/
def analizar_rentabilidad (datos : PyVal) (now : String) : Except String PyVal :=
  analizarCategoria descRentabilidad datos now generarRespuestaJsonCall

/-- `_analizar_eficiencia` as the program executes it. -/
def analizar_eficiencia (datos : PyVal) (now : String) : Except String PyVal :=
  analizarCategoria descEficiencia datos now generarRespuestaJsonCall

/-- `_analizar_riesgo_sectorial` as the program executes it. -/
def analizar_riesgo_sectorial (datos : PyVal) (now : String) : Except String PyVal :=
  analizarCategoria descSectorial datos now generarRespuestaJsonCall

/-- `_generar_calificacion_riesgo` as the program executes it. -/
def generar_calificacion_riesgo_actual (cfg : Settings) : PyVal :=
  generar_calificacion_riesgo cfg generarRespuestaJsonCall

/-- `_generar_recomendaciones` as the program executes it. -/
def generar_recomendaciones_actual : PyVal :=
  generar_recomendaciones generarRespuestaJsonCall

/-! ### Sector validation (src/utils/validators.py lines 75-118)

`validar_sector_empresa` works on `sector.strip().title()`.  Python's case
maps are modeled on ASCII plus the accented letters the validator's own
character class names (á é í ó ú ñ and their capitals); any other character is
left fixed and treated as uncased.  This changes `title()`'s output only on
strings containing a cased character outside that set — and every such
character fails the validator's character class in any casing, so the final
verdict agrees with CPython on all inputs. -/

/-- Python `str.lower` on the modeled alphabet. -/
def toLowerPy (c : Char) : Char :=
  if 'A' ≤ c ∧ c ≤ 'Z' then Char.ofNat (c.toNat + 32)
  else match c with
  | 'Á' => 'á'
  | 'É' => 'é'
  | 'Í' => 'í'
  | 'Ó' => 'ó'
  | 'Ú' => 'ú'
  | 'Ñ' => 'ñ'
  | _ => c

/-- Python `str.upper` (= titlecase on this alphabet). -/
def toUpperPy (c : Char) : Char :=
  if 'a' ≤ c ∧ c ≤ 'z' then Char.ofNat (c.toNat - 32)
  else match c with
  | 'á' => 'Á'
  | 'é' => 'É'
  | 'í' => 'Í'
  | 'ó' => 'Ó'
  | 'ú' => 'Ú'
  | 'ñ' => 'Ñ'
  | _ => c

/-- Is the character cased (drives `str.title`'s word boundaries)? -/
def isCasedPy (c : Char) : Bool :=
  ('a' ≤ c ∧ c ≤ 'z') ∨ ('A' ≤ c ∧ c ≤ 'Z') ∨
  c ∈ ['á', 'é', 'í', 'ó', 'ú', 'ñ', 'Á', 'É', 'Í', 'Ó', 'Ú', 'Ñ']

/-- `str.title`'s scan: the first cased character after an uncased position is
uppercased, every other cased character is lowercased. -/
def pyTitleGo : Bool → List Char → List Char
  | _, [] => []
  | prevCased, c :: rest =>
    if isCasedPy c then
      (if prevCased then toLowerPy c else toUpperPy c) :: pyTitleGo true rest
    else
      c :: pyTitleGo false rest

/-- Python `str.title()`. -/
def pyTitle (cs : List Char) : List Char :=
  pyTitleGo false cs

/-- `self.sectores_validos` (src/utils/validators.py lines 23-32). -/
def sectoresValidos : List String :=
  ["Agricultura", "Ganadería", "Pesca", "Minería", "Petróleo",
   "Manufacturero", "Textil", "Alimentos", "Bebidas", "Automotriz",
   "Construcción", "Inmobiliario", "Comercio", "Retail", "Mayorista",
   "Transporte", "Logística", "Telecomunicaciones", "Servicios",
   "Financiero", "Bancario", "Seguros", "Tecnología", "Software",
   "Turismo", "Hotelería", "Restaurantes", "Educación", "Salud",
   "Farmacéutico", "Energía", "Utilities", "Medios", "Entretenimiento",
   "Consultoría", "Legal", "Otros"]

/-- One character of the validator's class `[a-zA-ZáéíóúñÑ\s\-_&]` (note:
lowercase accented vowels and both `ñ`/`Ñ`, but no uppercase accented
vowels). -/
def charsetSector (c : Char) : Bool :=
  ('a' ≤ c ∧ c ≤ 'z') ∨ ('A' ≤ c ∧ c ≤ 'Z') ∨
  c ∈ ['á', 'é', 'í', 'ó', 'ú', 'ñ', 'Ñ'] ∨
  pyIsSpace c ∨ c = '-' ∨ c = '_' ∨ c = '&'

/-- `re.compile(r"^[a-zA-ZáéíóúñÑ\s\-_&]+$").match(s)` as a boolean: at least
one character and every character in the class. -/
def coincideCharsetSector (cs : List Char) : Bool :=
  !cs.isEmpty && cs.all charsetSector

/-- `DataValidator.validar_sector_empresa` (src/utils/validators.py lines
75-118): falsy/type check, `sector = sector.strip().title()`, length bounds 3
and 100 on the titled string, the `sector_encontrado` scan over
`sectores_validos` (computed but only logged — it never changes the result),
then the character-class match. -/
def validar_sector_empresa (sector : String) : Bool :=
  if sector = "" then false
  else
    let s := pyTitle (pyStripList sector.data)
    if s.length < 3 then false
    else if s.length > 100 then false
    else
      let _sectorEncontrado := sectoresValidos.any (fun sv =>
        hasSubstr (s.map toLowerPy) (sv.data.map toLowerPy) ||
        hasSubstr (sv.data.map toLowerPy) (s.map toLowerPy))
      if coincideCharsetSector s then true else false

/-! ### The intake agent (src/agents/secretaria_virtual.py)

Only the state `preparar_datos_para_analisis` reads and writes is modeled:
the in-memory `self.session_data` dict and the files written under
`INPUT_DIR`.  File contents are kept structured (the `json.dump`/`json.load`
round-trip is not itself under any claim); the write is atomic — it either
lands or raises leaving no file, which is the granularity the claims need. -/

/-- One entry of `self.session_data` (the fields
`preparar_datos_para_analisis` touches). -/
structure Sesion where
  progreso : String
  empresa : PyVal
  archivos : List PyVal
  archivo_datos_analisis : Option String := Option.none

/-- The intake agent's mutable state: sessions plus the files it has written
into `INPUT_DIR`. -/
structure SecretariaState where
  session_data : List (String × Sesion)
  archivos_entrada : List (String × PyVal)

/-- `self.session_data[session_id]` / the `session_id not in
self.session_data` membership test, as one association-list lookup. -/
def buscarSesion (sid : String) : List (String × Sesion) → Option Sesion
  | [] => Option.none
  | (k, s) :: resto => if k = sid then some s else buscarSesion sid resto

/-- `self.session_data[session_id] = ...` on an existing key: replace that
entry, keeping order (Python dict update semantics; keys are unique). -/
def reemplazaSesion (sid : String) (nueva : Sesion) :
    List (String × Sesion) → List (String × Sesion)
  | [] => []
  | (k, s) :: resto =>
      if k = sid then (k, nueva) :: resto else (k, s) :: reemplazaSesion sid nueva resto

/-- `_generar_prompt_contexto` (lines 215-252): its effects are the two
subscripts on `empresa_info` and the `[:2000]` slice of the extracted text;
the surrounding Spanish template (pure literal text) is abbreviated to its
interpolation skeleton. -/
def generar_prompt_contexto (empresa_info : PyVal) (contenido_pdf : String)
    (fecha : String) : Except String String := do
  let nombre ← pyGetItem empresa_info "nombre"
  let sector ← pyGetItem empresa_info "sector"
  pure ("ANÁLISIS FINANCIERO REQUERIDO | Nombre: " ++ pyStr nombre ++
        " | Sector: " ++ pyStr sector ++ " | Fecha de análisis: " ++ fecha ++
        " | DOCUMENTO FINANCIERO: " ++ String.mk (contenido_pdf.data.take 2000) ++ "...")

/-- `preparar_datos_para_analisis` (src/agents/secretaria_virtual.py lines
157-213).  `extraccion` is the outcome of the external
`file_service.extraer_texto_pdf` call; `escritura` the outcome of the
`open`/`json.dump` write.  The unknown-session and wrong-`progreso` guards
return error dicts before the `try`; inside it, `sesion["archivos"][0]`
(IndexError when empty), the `path_guardado` subscript, the extraction, the
prompt-context subscripts and the write can all raise into the `except`,
which returns an error dict and leaves the state untouched. -/
def preparar_datos_para_analisis (cfg : Settings) (st : SecretariaState)
    (session_id : String) (extraccion : Except String String)
    (escritura : Except String Unit) (now : String) : PyVal × SecretariaState :=
  match buscarSesion session_id st.session_data with
  | Option.none => (.dict [("error", .str "Sesión no encontrada")], st)
  | some sesion =>
    if sesion.progreso ≠ "archivo_procesado" then
      (.dict [("error", .str "Proceso incompleto. Falta información o archivo.")], st)
    else
      let cuerpo : Except String (PyVal × SecretariaState) := do
        let archivo_info ←
          match sesion.archivos.head? with
          | some a => Except.ok a
          | Option.none => Except.error "list index out of range"
        let _ruta ← pyGetItem archivo_info "path_guardado"
        let contenido ← extraccion
        let prompt ← generar_prompt_contexto sesion.empresa contenido now
        let datos := PyVal.dict
          [("session_id", .str session_id),
           ("empresa", sesion.empresa),
           ("archivo_financiero", archivo_info),
           ("contenido_extraido", .str contenido),
           ("prompt_contexto", .str prompt),
           ("fecha_preparacion", .str now),
           ("estado", .str "listo_para_analisis")]
        let rutaDatos := cfg.INPUT_DIR ++ "/" ++ session_id ++ "_datos_analisis.json"
        let _ ← escritura
        let sesion1 : Sesion :=
          { sesion with progreso := "datos_preparados",
                        archivo_datos_analisis := some rutaDatos }
        let st1 : SecretariaState :=
          { session_data := reemplazaSesion session_id sesion1 st.session_data,
            archivos_entrada := (rutaDatos, datos) :: st.archivos_entrada }
        Except.ok
          (.dict [("success", .bool true),
                  ("mensaje", .str "¡Perfecto! He preparado todos los datos. Ahora nuestro Analista Senior se encargará del análisis financiero."),
                  ("datos_analisis", datos),
                  ("siguiente_paso", .str "enviar_a_analista")],
           st1)
      match cuerpo with
      | .ok r => r
      | .error e => (.dict [("error", .str ("Error preparando datos: " ++ e))], st)

/-! ### Concrete fixtures used by closed theorems -/

/-- A filesystem carrying one well-formed prepared-data file for session
`s1`. -/
def fsEjemplo : String → Option String := fun ruta =>
  if ruta = "./data/input/s1_datos_analisis.json"
  then some "\x7b\"empresa\": \x7b\"nombre\": \"Acme\", \"sector\": \"Comercio\"\x7d, \"contenido_extraido\": \"BALANCE\"\x7d"
  else Option.none

/-- Call outcomes in which the aggregation prompt parses to a dict *without*
a `"nivel"` key while every other call raises. -/
def envSinNivel : GenEnv where
  liquidez := .raised "x"
  solvencia := .raised "x"
  rentabilidad := .raised "x"
  eficiencia := .raised "x"
  sectorial := .raised "x"
  calificacion := .returned "\x7b\"puntuacion\": 10\x7d"
  recomendaciones := .raised "x"
  resumen := .raised "x"

/-- Call outcomes in which every generation call raises (the maximally
degraded run — also the actual behavior under C2). -/
def envTodoFalla : GenEnv where
  liquidez := .raised "x"
  solvencia := .raised "x"
  rentabilidad := .raised "x"
  eficiencia := .raised "x"
  sectorial := .raised "x"
  calificacion := .raised "x"
  recomendaciones := .raised "x"
  resumen := .raised "x"

/-! ### Predicates used by the claims -/

/-- The `str(e)` text of the `AttributeError` raised by every
`generar_respuesta_json` call site. -/
def mensajeAtributoJson : String :=
  "\x27OpenAIService\x27 object has no attribute \x27generar_respuesta_json\x27"

/-- The service-call outcomes the Risk Aggregator's failure branches handle:
the call raised; it returned an empty or all-whitespace string; the text does
not parse as JSON; or the parsed payload's `"error"` probe does anything but
cleanly answer `False` (the key is present, or the probe itself raises
`TypeError`). -/
def calificacionFallida (gen : GenOutcome) : Prop :=
  match gen with
  | .raised _ => True
  | .returned r =>
      r = "" ∨ pyStrip r = "" ∨
      (∃ e, jsonLoads r = .error e) ∨
      (∃ v, jsonLoads r = .ok v ∧ pyInStr "error" v ≠ .ok false)

/-- The shape §8 of the spec requires of a degraded category payload: the
structured-data field present and empty, a diagnostic text, the risk-tier
field equal to the default `"MEDIO"`, and a nonempty observations /
recommendations list. -/
def payloadDegradadoOk (d : CategoriaDesc) (res : PyVal) : Prop :=
  res.getKey? d.campoDatos = some d.datosVacios ∧
  (∃ s, res.getKey? d.campoTexto = some (.str s)) ∧
  res.getKey? d.campoRiesgo = some (.str "MEDIO") ∧
  (∃ xs, res.getKey? d.campoLista = some (.list xs) ∧ 1 ≤ xs.length)

/-- Well-formedness of a prepared analysis-data dict: the fields
`preparar_datos_para_analisis` always writes and the analyst's prompts
subscript — a company dict with name and sector, and extracted text. -/
def datosBienFormados (datos : PyVal) : Prop :=
  (∃ empresa, datos.getKey? "empresa" = some empresa ∧
     (∃ n, empresa.getKey? "nombre" = some n) ∧
     (∃ s, empresa.getKey? "sector" = some s)) ∧
  (∃ t, datos.getKey? "contenido_extraido" = some (.str t))

/-! ## Helper lemmas -/

/-- A string with a nonempty left part never concatenates to the empty
string. -/
lemma append_ne_empty_left (a b : String) (h : 0 < a.length) : a ++ b ≠ "" := by
  intro hEq
  have h2 := congrArg String.length hEq
  rw [String.length_append, String.length_empty] at h2
  omega

/-- An all-whitespace string strips to the empty string. -/
lemma pyStrip_of_whitespaceOnly (s : String) (h : whitespaceOnly s = true) :
    pyStrip s = "" := by
  have h' : ∀ c ∈ s.data, pyIsSpace c := by
    simpa [whitespaceOnly, List.all_eq_true] using h
  have hd : s.data.dropWhile pyIsSpace = [] := by
    rw [List.dropWhile_eq_nil_iff]
    exact h'
  simp [pyStrip, pyStripList, hd]

/-! ## C5 — approver-profile resolver -/

/-- **C5, counterexample.**  The claim says `_determinar_perfil_aprobador` is
total ("for any input rating dictionary it never fails").  It is not: for the
rating dictionary `\x7b"nivel": []\x7d` the call
`perfiles.get(nivel, perfiles["INTERMDIO"])` hashes the unhashable list and
raises `TypeError`. -/
theorem c5_perfil_counterexample :
    determinar_perfil_aprobador (PyVal.dict [("nivel", PyVal.list [])]) =
      .error "unhashable type: \x27list\x27" := rfl

/-- **C5, amended.**  For every rating dictionary whose `"nivel"` value is
hashable (in particular any string value, or a missing key),
`_determinar_perfil_aprobador` returns without failing, and the decision
table is the claimed one: `BASICO` ↦ the junior profile, `INTERMEDIO` ↦ the
senior-analyst profile, `AVANZADO` ↦ the specialist/manager profile, and any
other level — or a missing `"nivel"` key — ↦ exactly the `INTERMEDIO`
profile.  (Purity/determinism hold by construction: the embedding is a pure
function of its argument.) -/
theorem c5_perfil_amended :
    (∀ kvs : List (String × PyVal), lookupKey kvs "nivel" = some (.str "BASICO") →
       determinar_perfil_aprobador (.dict kvs) = .ok perfilBasico)
  ∧ (∀ kvs : List (String × PyVal), lookupKey kvs "nivel" = some (.str "INTERMEDIO") →
       determinar_perfil_aprobador (.dict kvs) = .ok perfilIntermedio)
  ∧ (∀ kvs : List (String × PyVal), lookupKey kvs "nivel" = some (.str "AVANZADO") →
       determinar_perfil_aprobador (.dict kvs) = .ok perfilAvanzado)
  ∧ (∀ (kvs : List (String × PyVal)) (s : String), lookupKey kvs "nivel" = some (.str s) →
       s ≠ "BASICO" → s ≠ "INTERMEDIO" → s ≠ "AVANZADO" →
       determinar_perfil_aprobador (.dict kvs) = .ok perfilIntermedio)
  ∧ (∀ kvs : List (String × PyVal), lookupKey kvs "nivel" = Option.none →
       determinar_perfil_aprobador (.dict kvs) = .ok perfilIntermedio)
  ∧ (∀ (kvs : List (String × PyVal)) (v : PyVal), lookupKey kvs "nivel" = some v →
       pyHashable v = true →
       ∃ p, determinar_perfil_aprobador (.dict kvs) = .ok p) := by
  refine ⟨?_, ?_, ?_, ?_, ?_, ?_⟩
  · intro kvs h
    simp [determinar_perfil_aprobador, pyDictGet, h, bind, Except.bind, pure, Except.pure,
      perfilPorNivel]
  · intro kvs h
    simp [determinar_perfil_aprobador, pyDictGet, h, bind, Except.bind, pure, Except.pure,
      perfilPorNivel]
  · intro kvs h
    simp [determinar_perfil_aprobador, pyDictGet, h, bind, Except.bind, pure, Except.pure,
      perfilPorNivel]
  · intro kvs s h h1 h2 h3
    simp only [determinar_perfil_aprobador, pyDictGet, h, Option.getD_some, bind, Except.bind,
      perfilPorNivel]
    split <;> simp_all [pure, Except.pure]
  · intro kvs h
    simp [determinar_perfil_aprobador, pyDictGet, h, bind, Except.bind, pure, Except.pure,
      perfilPorNivel]
  · intro kvs v h hv
    cases v <;>
      simp_all [determinar_perfil_aprobador, pyDictGet, pyHashable, bind, Except.bind,
        pure, Except.pure]

/-- **C5, witness** for the amended theorem at the `BASICO` row. -/
theorem c5_perfil_witness :
    determinar_perfil_aprobador (PyVal.dict [("nivel", PyVal.str "BASICO")]) =
      .ok perfilBasico :=
  c5_perfil_amended.1 [("nivel", PyVal.str "BASICO")] rfl

/-! ## C9 — sector validation -/

/-- **C9, counterexample.**  The claim says every string whose *stripped*
form has length 3-100 and matches the class `[a-zA-ZáéíóúñÑ\s\-_&]` is
accepted.  `"ártico"` strips to itself (length 6, all characters in the
class), yet `validar_sector_empresa` rejects it: the validator checks the
class on `strip().title()`, and `title()` produces `"Ártico"`, whose `Á` is
outside the class (which has no uppercase accented vowels). -/
theorem c9_sector_counterexample :
    validar_sector_empresa "ártico" = false ∧
    pyStripList "ártico".data = "ártico".data ∧
    ("ártico".data).length = 6 ∧
    coincideCharsetSector ("ártico".data) = true ∧
    pyTitle ("ártico".data) = "Ártico".data ∧
    coincideCharsetSector ("Ártico".data) = false :=
  ⟨rfl, rfl, rfl, by decide, rfl, by decide⟩

/-- **C9, amended.**  `validar_sector_empresa` accepts exactly the non-empty
strings whose *stripped-and-title-cased* form has length between 3 and 100
and matches the class `[a-zA-ZáéíóúñÑ\s\-_&]` (title-casing uppercases the
first letter of each word, and the uppercase accented vowels that this can
produce are outside the class).  Membership in `sectores_validos` appears
nowhere in the characterization: the list scan only feeds logging, so an
unknown sector is never rejected for being unknown — type, length and
charset alone decide. -/
theorem c9_sector_amended :
    ∀ sector : String,
      validar_sector_empresa sector = true ↔
        (sector ≠ "" ∧
         3 ≤ (pyTitle (pyStripList sector.data)).length ∧
         (pyTitle (pyStripList sector.data)).length ≤ 100 ∧
         coincideCharsetSector (pyTitle (pyStripList sector.data)) = true) := by
  intro sector
  simp only [validar_sector_empresa]
  split_ifs with h1 h2 h3 h4 <;> simp_all

/-- **C9, witness** for the amended characterization: a sector absent from
`sectores_validos` is accepted on type/length/charset alone. -/
theorem c9_sector_witness : validar_sector_empresa "Sector Nuevo Xyz" = true :=
  (c9_sector_amended "Sector Nuevo Xyz").mpr ⟨by decide, by decide, by decide, by decide⟩

/-! ## C1 — risk-rating level enum invariant -/

/-- **C1, counterexample.**  The claim says an out-of-enum `nivel` in a
successfully parsed backend payload is coerced to
`settings.DEFAULT_RISK_LEVEL`.  It is not: the success branch of
`_generar_calificacion_riesgo` returns the parsed payload verbatim, so the
adversarial response `\x7b"nivel": "SUPER_HIGH", "puntuacion": 80\x7d` comes
back with `nivel = "SUPER_HIGH"`, which is neither in `RISK_LEVELS` nor the
configured default. -/
theorem c1_nivel_counterexample :
    generar_calificacion_riesgo defaultSettings
      (GenOutcome.returned "\x7b\"nivel\": \"SUPER_HIGH\", \"puntuacion\": 80\x7d") =
      PyVal.dict [("nivel", PyVal.str "SUPER_HIGH"), ("puntuacion", PyVal.int 80)] ∧
    "SUPER_HIGH" ∉ defaultSettings.RISK_LEVELS ∧
    defaultSettings.DEFAULT_RISK_LEVEL = "INTERMEDIO" ∧
    ("SUPER_HIGH" : String) ≠ "INTERMEDIO" :=
  ⟨rfl, by decide, rfl, by decide⟩

/-- **C1, amended.**  For every backend response that parses as JSON without
an embedded `"error"` key, `_generar_calificacion_riesgo` returns the parsed
payload verbatim: no post-parse validation or coercion of `nivel` is
performed, so any out-of-enum level the backend emits propagates unchanged
(the configured default level is used only by the failure fallbacks). -/
theorem c1_nivel_amended :
    ∀ (cfg : Settings) (r : String) (v : PyVal),
      ¬(r = "" ∨ pyStrip r = "") →
      jsonLoads r = .ok v →
      pyInStr "error" v = .ok false →
      generar_calificacion_riesgo cfg (GenOutcome.returned r) = v := by
  intro cfg r v h1 h2 h3
  simp [generar_calificacion_riesgo, h1, h2, h3]

/-- **C1, witness** for the amended theorem on a concrete parsed payload. -/
theorem c1_nivel_witness :
    generar_calificacion_riesgo defaultSettings
      (GenOutcome.returned "\x7b\"nivel\": \"BASICO\"\x7d") =
      PyVal.dict [("nivel", PyVal.str "BASICO")] :=
  c1_nivel_amended defaultSettings "\x7b\"nivel\": \"BASICO\"\x7d"
    (PyVal.dict [("nivel", PyVal.str "BASICO")]) (by decide) rfl rfl

/-- A successful `getKey?` means the value is a dict carrying the key, so the
subscript succeeds with the same value. -/
lemma pyGetItem_of_getKeyEq (v : PyVal) (k : String) (x : PyVal)
    (h : v.getKey? k = some x) : pyGetItem v k = .ok x := by
  cases v <;> simp_all [PyVal.getKey?, pyGetItem]

/-- On well-formed prepared data the prompt construction of a category
analysis cannot raise, so the method returns the post-call body's result. -/
lemma analizarCategoria_ok (d : CategoriaDesc) (datos : PyVal) (now : String)
    (gen : GenOutcome) (h : datosBienFormados datos) :
    analizarCategoria d datos now gen = .ok (analizarCategoriaNucleo d now gen) := by
  obtain ⟨⟨empresa, he, ⟨n, hn⟩, ⟨s, hs⟩⟩, ⟨t, ht⟩⟩ := h
  have h1 := pyGetItem_of_getKeyEq datos "empresa" empresa he
  have h2 := pyGetItem_of_getKeyEq empresa "nombre" n hn
  have h3 := pyGetItem_of_getKeyEq empresa "sector" s hs
  have h4 := pyGetItem_of_getKeyEq datos "contenido_extraido" (.str t) ht
  simp only [analizarCategoria, h1, h2, h3, h4, pySlice1500, bind, Except.bind,
    pure, Except.pure]
  split <;> rfl

/-! ## C6 — the aggregator's fallback rating -/

/-- **C6** (confirmed).  Whenever the Risk Aggregator's generation call
fails, returns an empty/whitespace response, returns malformed JSON, or
returns a payload whose embedded-`"error"` probe does not cleanly answer
`False`, the fallback rating has `nivel` equal to the configured
`DEFAULT_RISK_LEVEL`, `puntuacion` fixed at 50, a `factores` list with
exactly one synthetic entry, and a nonempty `justificacion`. -/
theorem c6_calificacion_fallback :
    ∀ (cfg : Settings) (gen : GenOutcome), calificacionFallida gen →
      (generar_calificacion_riesgo cfg gen).getKey? "nivel"
          = some (.str cfg.DEFAULT_RISK_LEVEL) ∧
      (generar_calificacion_riesgo cfg gen).getKey? "puntuacion" = some (.int 50) ∧
      (∃ f, (generar_calificacion_riesgo cfg gen).getKey? "factores"
          = some (.list [.str f])) ∧
      (∃ j, (generar_calificacion_riesgo cfg gen).getKey? "justificacion"
          = some (.str j) ∧ j ≠ "") := by
  intro cfg gen hf
  have key : ∃ f j, generar_calificacion_riesgo cfg gen = calificacionFallback cfg f j
      ∧ j ≠ "" := by
    cases gen with
    | raised e =>
        exact ⟨_, _, rfl, append_ne_empty_left "Error en el proceso: " e (by decide)⟩
    | returned r =>
      by_cases hemp : r = "" ∨ pyStrip r = ""
      · refine ⟨"Error: No se pudo generar calificación",
          "No se pudo completar la evaluación por falta de respuesta del modelo",
          ?_, by decide⟩
        simp [generar_calificacion_riesgo, hemp]
      · cases hjson : jsonLoads r with
        | error e =>
            refine ⟨"Error de formato", "Error en formato de respuesta del modelo",
              ?_, by decide⟩
            simp [generar_calificacion_riesgo, hemp, hjson]
        | ok v =>
          cases hin : pyInStr "error" v with
          | error e2 =>
              refine ⟨"Error en análisis automático", "Error en el proceso: " ++ e2,
                ?_, append_ne_empty_left "Error en el proceso: " e2 (by decide)⟩
              simp [generar_calificacion_riesgo, hemp, hjson, hin]
          | ok b =>
            cases b with
            | false =>
                exfalso
                rcases hf with h | h | ⟨e, h⟩ | ⟨v2, h, hne⟩
                · exact hemp (Or.inl h)
                · exact hemp (Or.inr h)
                · rw [hjson] at h; exact Except.noConfusion h
                · rw [hjson] at h
                  injection h with h
                  subst h
                  exact hne hin
            | true =>
              cases hg : pyGetItem v "error" with
              | error e3 =>
                  refine ⟨"Error en análisis automático", "Error en el proceso: " ++ e3,
                    ?_, append_ne_empty_left "Error en el proceso: " e3 (by decide)⟩
                  simp [generar_calificacion_riesgo, hemp, hjson, hin, hg]
              | ok errv =>
                have hv : ∃ kvs, v = PyVal.dict kvs := by
                  cases v <;> simp_all [pyGetItem]
                obtain ⟨kvs, rfl⟩ := hv
                refine ⟨"Error en procesamiento",
                  "Error en análisis: " ++ pyStr ((lookupKey kvs "error").getD (.str "Desconocido")),
                  ?_,
                  append_ne_empty_left "Error en análisis: "
                    (pyStr ((lookupKey kvs "error").getD (.str "Desconocido"))) (by decide)⟩
                simp [generar_calificacion_riesgo, hemp, hjson, hin, hg, pyDictGet]
  obtain ⟨f, j, heq, hj⟩ := key
  rw [heq]
  exact ⟨rfl, rfl, ⟨f, rfl⟩, ⟨j, rfl, hj⟩⟩

/-- **C6, witness**: a raised generation call at the default settings. -/
theorem c6_calificacion_witness :
    (generar_calificacion_riesgo defaultSettings (GenOutcome.raised "boom")).getKey? "nivel"
        = some (.str defaultSettings.DEFAULT_RISK_LEVEL) ∧
    (generar_calificacion_riesgo defaultSettings (GenOutcome.raised "boom")).getKey?
        "puntuacion" = some (.int 50) ∧
    (∃ f, (generar_calificacion_riesgo defaultSettings
        (GenOutcome.raised "boom")).getKey? "factores" = some (.list [.str f])) ∧
    (∃ j, (generar_calificacion_riesgo defaultSettings
        (GenOutcome.raised "boom")).getKey? "justificacion" = some (.str j) ∧ j ≠ "") :=
  c6_calificacion_fallback defaultSettings (GenOutcome.raised "boom") trivial

/-! ## C7 — recommendations generator -/

/-- **C7, counterexample.**  The claim says `_generar_recomendaciones` never
returns an empty list and answers any non-list response with the fixed 2-5
item fallback.  Both parts fail: a response parsing to the JSON empty list is
returned verbatim (an empty list), and a response parsing to the number `7`
is wrapped into the one-element list `[str(7)]` rather than replaced by the
fixed fallback. -/
theorem c7_recomendaciones_counterexample :
    generar_recomendaciones (GenOutcome.returned "[]") = PyVal.list [] ∧
    generar_recomendaciones (GenOutcome.returned "7") = PyVal.list [.str "7"] :=
  ⟨rfl, rfl⟩

/-- **C7, amended.**  `_generar_recomendaciones` returns the fixed nonempty
fallback lists (2, 5, 3 and 3 items) for a raised call, an empty/whitespace
response, malformed JSON and an embedded-error dict respectively; but a
successfully parsed JSON list is returned verbatim — including the empty
list — and any other parsed value is wrapped as the one-element list of its
`str()` form. -/
theorem c7_recomendaciones_amended :
    (∀ e, generar_recomendaciones (GenOutcome.raised e) =
        .list [.str "Revisar estados financieros", .str "Monitorear indicadores clave"])
  ∧ (∀ r, (r = "" ∨ pyStrip r = "") →
      generar_recomendaciones (GenOutcome.returned r) =
        .list [.str "Revisar estados financieros detalladamente",
               .str "Monitorear indicadores clave de liquidez",
               .str "Evaluar estructura de capital",
               .str "Verificar flujos de efectivo",
               .str "Analizar rentabilidad operativa"])
  ∧ (∀ r e, ¬(r = "" ∨ pyStrip r = "") → jsonLoads r = .error e →
      generar_recomendaciones (GenOutcome.returned r) =
        .list [.str "Revisar estados financieros",
               .str "Monitorear indicadores clave",
               .str "Evaluar riesgos identificados"])
  ∧ (∀ r kvs, ¬(r = "" ∨ pyStrip r = "") → jsonLoads r = .ok (.dict kvs) →
      kvs.any (fun kv => kv.1 = "error") = true →
      generar_recomendaciones (GenOutcome.returned r) =
        .list [.str "Revisar estados financieros detalladamente",
               .str "Monitorear indicadores clave",
               .str "Consultar con analista especializado"])
  ∧ (∀ r xs, ¬(r = "" ∨ pyStrip r = "") → jsonLoads r = .ok (.list xs) →
      generar_recomendaciones (GenOutcome.returned r) = .list xs)
  ∧ (∀ r v, ¬(r = "" ∨ pyStrip r = "") → jsonLoads r = .ok v →
      (match v with
       | PyVal.dict kvs => kvs.any (fun kv => kv.1 = "error")
       | _ => false) = false →
      (∀ xs, v ≠ .list xs) →
      generar_recomendaciones (GenOutcome.returned r) = .list [.str (pyStr v)]) := by
  refine ⟨?_, ?_, ?_, ?_, ?_, ?_⟩
  · intro e; rfl
  · intro r h
    simp [generar_recomendaciones, h]
  · intro r e h hj
    simp [generar_recomendaciones, h, hj]
  · intro r kvs h hj hin
    simp [generar_recomendaciones, h, hj, hin]
  · intro r xs h hj
    simp [generar_recomendaciones, h, hj]
  · intro r v h hj hdict hnl
    cases v <;> simp_all [generar_recomendaciones]
    intro x hx
    exact hdict _ _ hx rfl

/-- **C7, witness** for the amended theorem: a raised call yields the 2-item
fallback. -/
theorem c7_recomendaciones_witness :
    generar_recomendaciones (GenOutcome.raised "x") =
      .list [.str "Revisar estados financieros", .str "Monitorear indicadores clave"] :=
  c7_recomendaciones_amended.1 "x"

/-! ## C8 — whitespace-only responses -/

/-- **C8** (confirmed).  In every category analysis an all-whitespace
response takes the empty-response branch — `response.strip() == ""` is
checked before `json.loads` runs — so it yields exactly the empty-response
degraded result, the same value as for `""`, and that value differs from the
parse-failure degraded result. -/
theorem c8_respuesta_blanca :
    ∀ d ∈ categorias, ∀ now ws : String, whitespaceOnly ws = true →
      analizarCategoriaNucleo d now (GenOutcome.returned ws) =
        envolver d now (resultadoVacio d) ∧
      analizarCategoriaNucleo d now (GenOutcome.returned ws) =
        analizarCategoriaNucleo d now (GenOutcome.returned "") ∧
      envolver d now (resultadoVacio d) ≠ envolver d now (resultadoFormatoInvalido d) := by
  intro d hd now ws hws
  have hstrip : pyStrip ws = "" := pyStrip_of_whitespaceOnly ws hws
  have h1 : analizarCategoriaNucleo d now (.returned ws) =
      envolver d now (resultadoVacio d) := by
    simp [analizarCategoriaNucleo, hstrip]
  have h0 : analizarCategoriaNucleo d now (.returned "") =
      envolver d now (resultadoVacio d) := by
    simp [analizarCategoriaNucleo]
  refine ⟨h1, h1.trans h0.symm, ?_⟩
  simp only [categorias, List.mem_cons, List.mem_singleton, List.not_mem_nil, or_false] at hd
  rcases hd with rfl | rfl | rfl | rfl | rfl <;>
    simp [envolver, resultadoVacio, resultadoFormatoInvalido,
      descLiquidez, descSolvencia, descRentabilidad, descEficiencia, descSectorial]

/-- **C8, witness**: liquidity with the response `"  \t "`. -/
theorem c8_respuesta_blanca_witness :
    analizarCategoriaNucleo descLiquidez "T" (GenOutcome.returned "  \t ") =
      envolver descLiquidez "T" (resultadoVacio descLiquidez) ∧
    analizarCategoriaNucleo descLiquidez "T" (GenOutcome.returned "  \t ") =
      analizarCategoriaNucleo descLiquidez "T" (GenOutcome.returned "") ∧
    envolver descLiquidez "T" (resultadoVacio descLiquidez) ≠
      envolver descLiquidez "T" (resultadoFormatoInvalido descLiquidez) :=
  c8_respuesta_blanca descLiquidez (by simp [categorias]) "T" "  \t " (by decide)

/-- A successful subscript implies `dict.get` with any default returns the
same value. -/
lemma pyDictGet_of_pyGetItem (v : PyVal) (k : String) (x dflt : PyVal)
    (h : pyGetItem v k = .ok x) : pyDictGet v k dflt = .ok x := by
  cases v <;> simp_all [pyGetItem, pyDictGet]
  case dict kvs =>
    cases hlk : lookupKey kvs k <;> simp_all

/-- The result envelope exposes its payload under `"resultado"`. -/
lemma envolver_resultado (d : CategoriaDesc) (now : String) (res : PyVal) :
    (envolver d now res).getKey? "resultado" = some res := rfl

/-- Membership in `categorias` means being one of the five descriptors. -/
lemma mem_categorias (d : CategoriaDesc) (hd : d ∈ categorias) :
    d = descLiquidez ∨ d = descSolvencia ∨ d = descRentabilidad ∨
    d = descEficiencia ∨ d = descSectorial := by
  simpa [categorias] using hd

/-- The empty-response payload has the uniform degraded shape for each of the
five categories. -/
lemma payloadVacioOk : ∀ d ∈ categorias, payloadDegradadoOk d (resultadoVacio d) := by
  intro d hd
  rcases mem_categorias d hd with rfl | rfl | rfl | rfl | rfl <;>
    exact ⟨rfl, ⟨_, rfl⟩, rfl, ⟨_, rfl, by decide⟩⟩

/-- So does the malformed-JSON payload. -/
lemma payloadFormatoOk : ∀ d ∈ categorias, payloadDegradadoOk d (resultadoFormatoInvalido d) := by
  intro d hd
  rcases mem_categorias d hd with rfl | rfl | rfl | rfl | rfl <;>
    exact ⟨rfl, ⟨_, rfl⟩, rfl, ⟨_, rfl, by decide⟩⟩

/-- And the embedded-error payload, for any embedded error value. -/
lemma payloadEmbebidoOk :
    ∀ d ∈ categorias, ∀ errv, payloadDegradadoOk d (resultadoErrorEmbebido d errv) := by
  intro d hd errv
  rcases mem_categorias d hd with rfl | rfl | rfl | rfl | rfl <;>
    exact ⟨rfl, ⟨_, rfl⟩, rfl, ⟨_, rfl, by decide⟩⟩

/-! ## C3 — uniform degraded shape across categories -/

/-- **C3, counterexample.**  The claim says every failure branch of every
category yields a payload with the default risk-tier label and a nonempty
observations/recommendations list.  Solvencia's generic-exception branch
(src/agents/analista_riesgos.py lines 304-310) does not: on a raised
generation call its payload is the bare `\x7b"error": str(e)\x7d`, with no
`riesgo_insolvencia` label and no `recomendaciones` list — and, the
generation method being undefined (C2), this is the branch solvencia always
takes in the running program. -/
theorem c3_solvencia_counterexample :
    analizarCategoriaNucleo descSolvencia "T" (GenOutcome.raised "boom") =
      PyVal.dict [("categoria", .str "solvencia"),
                  ("resultado", .dict [("error", .str "boom")]),
                  ("timestamp", .str "T")] ∧
    (PyVal.dict [("error", PyVal.str "boom")]).getKey? "riesgo_insolvencia"
      = Option.none ∧
    (PyVal.dict [("error", PyVal.str "boom")]).getKey? "recomendaciones"
      = Option.none :=
  ⟨rfl, rfl, rfl⟩

/-- **C3, amended.**  The uniform degraded shape (default label `"MEDIO"`,
nonempty observations/recommendations list, same populated fields) holds for
the empty-response, malformed-JSON and embedded-error branches of all five
categories, and for the generic-exception branch of the four categories
other than solvencia; solvencia's generic-exception branch instead returns
the bare payload `\x7b"error": message\x7d`. -/
theorem c3_categoria_degradada_amended :
    ∀ d ∈ categorias, ∀ now : String,
      (∀ r : String, (r = "" ∨ pyStrip r = "") →
        (analizarCategoriaNucleo d now (GenOutcome.returned r)).getKey? "resultado"
            = some (resultadoVacio d) ∧
        payloadDegradadoOk d (resultadoVacio d)) ∧
      (∀ r e, ¬(r = "" ∨ pyStrip r = "") → jsonLoads r = .error e →
        (analizarCategoriaNucleo d now (GenOutcome.returned r)).getKey? "resultado"
            = some (resultadoFormatoInvalido d) ∧
        payloadDegradadoOk d (resultadoFormatoInvalido d)) ∧
      (∀ r v errv, ¬(r = "" ∨ pyStrip r = "") → jsonLoads r = .ok v →
        pyInStr "error" v = .ok true → pyGetItem v "error" = .ok errv →
        (analizarCategoriaNucleo d now (GenOutcome.returned r)).getKey? "resultado"
            = some (resultadoErrorEmbebido d errv) ∧
        payloadDegradadoOk d (resultadoErrorEmbebido d errv)) ∧
      (d.categoria ≠ "solvencia" →
        ∀ e, (analizarCategoriaNucleo d now (GenOutcome.raised e)).getKey? "resultado"
            = some (d.resultadoGenerico e) ∧
        payloadDegradadoOk d (d.resultadoGenerico e)) ∧
      (d.categoria = "solvencia" →
        ∀ e, (analizarCategoriaNucleo d now (GenOutcome.raised e)).getKey? "resultado"
            = some (.dict [("error", .str e)])) := by
  intro d hd now
  refine ⟨?_, ?_, ?_, ?_, ?_⟩
  · intro r h
    have e1 : analizarCategoriaNucleo d now (.returned r) =
        envolver d now (resultadoVacio d) := by
      simp [analizarCategoriaNucleo, h]
    rw [e1, envolver_resultado]
    exact ⟨rfl, payloadVacioOk d hd⟩
  · intro r e hne hj
    have e1 : analizarCategoriaNucleo d now (.returned r) =
        envolver d now (resultadoFormatoInvalido d) := by
      simp [analizarCategoriaNucleo, hne, hj]
    rw [e1, envolver_resultado]
    exact ⟨rfl, payloadFormatoOk d hd⟩
  · intro r v errv hne hj hin hg
    have hdg := pyDictGet_of_pyGetItem v "error" errv (.str "Desconocido") hg
    have e1 : analizarCategoriaNucleo d now (.returned r) =
        envolver d now (resultadoErrorEmbebido d errv) := by
      simp [analizarCategoriaNucleo, hne, hj, hin, hg, hdg]
    rw [e1, envolver_resultado]
    exact ⟨rfl, payloadEmbebidoOk d hd errv⟩
  · intro hneq e
    refine ⟨envolver_resultado d now _, ?_⟩
    rcases mem_categorias d hd with rfl | rfl | rfl | rfl | rfl
    · exact ⟨rfl, ⟨_, rfl⟩, rfl, ⟨_, rfl, by decide⟩⟩
    · exact absurd rfl hneq
    · exact ⟨rfl, ⟨_, rfl⟩, rfl, ⟨_, rfl, by decide⟩⟩
    · exact ⟨rfl, ⟨_, rfl⟩, rfl, ⟨_, rfl, by decide⟩⟩
    · exact ⟨rfl, ⟨_, rfl⟩, rfl, ⟨_, rfl, by decide⟩⟩
  · intro hsol e
    rcases mem_categorias d hd with rfl | rfl | rfl | rfl | rfl <;>
      first
        | exact envolver_resultado descSolvencia now _
        | simp [descLiquidez, descRentabilidad, descEficiencia, descSectorial] at hsol

/-- **C3, witness** for the amended theorem: liquidity, empty response. -/
theorem c3_categoria_degradada_witness :
    (analizarCategoriaNucleo descLiquidez "T" (GenOutcome.returned "")).getKey?
        "resultado" = some (resultadoVacio descLiquidez) ∧
    payloadDegradadoOk descLiquidez (resultadoVacio descLiquidez) :=
  (c3_categoria_degradada_amended descLiquidez (by simp [categorias]) "T").1 ""
    (Or.inl rfl)

/-! ## C2 — the undefined service method -/

/-- **C2** (confirmed).  `OpenAIService` defines no `generar_respuesta_json`,
so every such call resolves to a raised `AttributeError`; consequently, on
any well-formed prepared data each of the five category analyses returns its
generic-exception degraded envelope, the risk rating returns its
generic-exception fallback, and the recommendations generator returns its
2-item fallback — the parsed-success branch of each is unreachable (the
result always equals the generic-exception value, never a parsed payload). -/
theorem c2_metodo_indefinido :
    "generar_respuesta_json" ∉ openAIServiceMethodNames ∧
    generarRespuestaJsonCall = GenOutcome.raised mensajeAtributoJson ∧
    (∀ (datos : PyVal) (now : String), datosBienFormados datos →
      analizar_liquidez datos now =
        .ok (envolver descLiquidez now
          (descLiquidez.resultadoGenerico mensajeAtributoJson)) ∧
      analizar_solvencia datos now =
        .ok (envolver descSolvencia now
          (descSolvencia.resultadoGenerico mensajeAtributoJson)) ∧
      analizar_rentabilidad datos now =
        .ok (envolver descRentabilidad now
          (descRentabilidad.resultadoGenerico mensajeAtributoJson)) ∧
      analizar_eficiencia datos now =
        .ok (envolver descEficiencia now
          (descEficiencia.resultadoGenerico mensajeAtributoJson)) ∧
      analizar_riesgo_sectorial datos now =
        .ok (envolver descSectorial now
          (descSectorial.resultadoGenerico mensajeAtributoJson))) ∧
    (∀ cfg : Settings, generar_calificacion_riesgo_actual cfg =
      calificacionFallback cfg "Error en análisis automático"
        ("Error en el proceso: " ++ mensajeAtributoJson)) ∧
    generar_recomendaciones_actual =
      .list [.str "Revisar estados financieros", .str "Monitorear indicadores clave"] := by
  refine ⟨by decide, rfl, ?_, fun cfg => rfl, rfl⟩
  intro datos now h
  exact ⟨analizarCategoria_ok descLiquidez datos now generarRespuestaJsonCall h,
         analizarCategoria_ok descSolvencia datos now generarRespuestaJsonCall h,
         analizarCategoria_ok descRentabilidad datos now generarRespuestaJsonCall h,
         analizarCategoria_ok descEficiencia datos now generarRespuestaJsonCall h,
         analizarCategoria_ok descSectorial datos now generarRespuestaJsonCall h⟩

/-- **C2, witness**: the five analyses on a concrete prepared-data dict. -/
theorem c2_metodo_indefinido_witness :
    analizar_liquidez
      (PyVal.dict [("empresa", .dict [("nombre", .str "Acme"), ("sector", .str "Comercio")]),
                   ("contenido_extraido", .str "BALANCE")]) "T" =
      .ok (envolver descLiquidez "T"
        (descLiquidez.resultadoGenerico mensajeAtributoJson)) ∧
    analizar_solvencia
      (PyVal.dict [("empresa", .dict [("nombre", .str "Acme"), ("sector", .str "Comercio")]),
                   ("contenido_extraido", .str "BALANCE")]) "T" =
      .ok (envolver descSolvencia "T"
        (descSolvencia.resultadoGenerico mensajeAtributoJson)) ∧
    analizar_rentabilidad
      (PyVal.dict [("empresa", .dict [("nombre", .str "Acme"), ("sector", .str "Comercio")]),
                   ("contenido_extraido", .str "BALANCE")]) "T" =
      .ok (envolver descRentabilidad "T"
        (descRentabilidad.resultadoGenerico mensajeAtributoJson)) ∧
    analizar_eficiencia
      (PyVal.dict [("empresa", .dict [("nombre", .str "Acme"), ("sector", .str "Comercio")]),
                   ("contenido_extraido", .str "BALANCE")]) "T" =
      .ok (envolver descEficiencia "T"
        (descEficiencia.resultadoGenerico mensajeAtributoJson)) ∧
    analizar_riesgo_sectorial
      (PyVal.dict [("empresa", .dict [("nombre", .str "Acme"), ("sector", .str "Comercio")]),
                   ("contenido_extraido", .str "BALANCE")]) "T" =
      .ok (envolver descSectorial "T"
        (descSectorial.resultadoGenerico mensajeAtributoJson)) :=
  c2_metodo_indefinido.2.2.1
    (PyVal.dict [("empresa", .dict [("nombre", .str "Acme"), ("sector", .str "Comercio")]),
                 ("contenido_extraido", .str "BALANCE")]) "T"
    ⟨⟨_, rfl, ⟨_, rfl⟩, ⟨_, rfl⟩⟩, ⟨_, rfl⟩⟩

/-- With a hashable `"nivel"` present in the rating dict, the profile
resolver succeeds with the table row. -/
lemma determinar_perfil_ok (calif nv : PyVal)
    (h : calif.getKey? "nivel" = some nv) (hh : pyHashable nv = true) :
    determinar_perfil_aprobador calif = .ok (perfilPorNivel nv) := by
  cases calif <;> simp_all [PyVal.getKey?]
  case dict kvs =>
    cases nv <;>
      simp_all [determinar_perfil_aprobador, pyDictGet, pyHashable, bind, Except.bind,
        pure, Except.pure, h]

/-! ## C4 — the orchestrator's success envelope -/

/-- **C4, counterexample.**  The claim says every session whose prepared
data loads successfully gets a success envelope, for any mix of degraded or
successful sub-results.  Not so: with the prepared data loading fine (first
conjunct) and the aggregation prompt *succeeding* with the parsed payload
`\x7b"puntuacion": 10\x7d` — which has no `"nivel"` key — the still-in-`try`
log line `calificacion_riesgo["nivel"]` raises `KeyError`, and the
orchestrator returns an error dict instead of a success envelope. -/
theorem c4_orquestador_counterexample :
    cargar_datos_analisis defaultSettings fsEjemplo "s1" =
      PyVal.dict [("empresa", .dict [("nombre", .str "Acme"), ("sector", .str "Comercio")]),
                  ("contenido_extraido", .str "BALANCE")] ∧
    analizar_estado_financiero defaultSettings envSinNivel fsEjemplo (.ok ()) "T" "s1" =
      PyVal.dict [("error", .str "Error en análisis: \x27nivel\x27")] :=
  ⟨rfl, rfl⟩

/-- **C4, amended.**  For every session whose prepared analysis data loads
successfully (a well-formed prepared-data dict without a top-level `"error"`
key), and *provided the aggregated rating carries a hashable `"nivel"`* —
which every degraded aggregation fallback does — the orchestrator returns
the success envelope with the five category results, the rating, the
recommendations, the approver profile and the executive summary, no matter
how many of the eight calls degraded.  Only an aggregation that parses
without a usable `"nivel"` (or a hard load failure) escapes this. -/
theorem c4_orquestador_amended :
    ∀ (cfg : Settings) (env : GenEnv) (fs : String → Option String)
      (wr : Except String Unit) (now sid : String) (datos empresa nv : PyVal),
      cargar_datos_analisis cfg fs sid = datos →
      pyInStr "error" datos = .ok false →
      datos.getKey? "empresa" = some empresa →
      datosBienFormados datos →
      (generar_calificacion_riesgo cfg env.calificacion).getKey? "nivel" = some nv →
      pyHashable nv = true →
      analizar_estado_financiero cfg env fs wr now sid =
        PyVal.dict
          [("success", .bool true),
           ("reporte_final", PyVal.dict
             [("session_id", .str sid),
              ("empresa", empresa),
              ("fecha_analisis", .str now),
              ("analisis_detallado", .dict
                [("liquidez", analizarCategoriaNucleo descLiquidez now env.liquidez),
                 ("solvencia", analizarCategoriaNucleo descSolvencia now env.solvencia),
                 ("rentabilidad",
                  analizarCategoriaNucleo descRentabilidad now env.rentabilidad),
                 ("eficiencia", analizarCategoriaNucleo descEficiencia now env.eficiencia),
                 ("sectorial", analizarCategoriaNucleo descSectorial now env.sectorial)]),
              ("calificacion_riesgo", generar_calificacion_riesgo cfg env.calificacion),
              ("recomendaciones", generar_recomendaciones env.recomendaciones),
              ("perfil_aprobador", perfilPorNivel nv),
              ("resumen_ejecutivo", .str (generar_resumen_ejecutivo env.resumen))]),
           ("siguiente_paso", .str "generar_documento")] := by
  intro cfg env fs wr now sid datos empresa nv hcargar herr hemp hwf hnv hh
  obtain ⟨⟨empresa2, hemp2, ⟨n, hn⟩, hs⟩, ht⟩ := hwf
  have hEq : empresa2 = empresa := Option.some.inj (hemp2.symm.trans hemp)
  subst hEq
  have hwf2 : datosBienFormados datos := ⟨⟨empresa2, hemp2, ⟨n, hn⟩, hs⟩, ht⟩
  have h1 := pyGetItem_of_getKeyEq datos "empresa" empresa2 hemp
  have h2 := pyGetItem_of_getKeyEq empresa2 "nombre" n hn
  have hL := analizarCategoria_ok descLiquidez datos now env.liquidez hwf2
  have hS := analizarCategoria_ok descSolvencia datos now env.solvencia hwf2
  have hR := analizarCategoria_ok descRentabilidad datos now env.rentabilidad hwf2
  have hE := analizarCategoria_ok descEficiencia datos now env.eficiencia hwf2
  have hX := analizarCategoria_ok descSectorial datos now env.sectorial hwf2
  have hperfil := determinar_perfil_ok (generar_calificacion_riesgo cfg env.calificacion)
    nv hnv hh
  have hnivel := pyGetItem_of_getKeyEq (generar_calificacion_riesgo cfg env.calificacion)
    "nivel" nv hnv
  simp only [analizar_estado_financiero, hcargar, herr, h1, h2, hL, hS, hR, hE, hX,
    hperfil, hnivel, bind, Except.bind, pure, Except.pure, guardar_analisis,
    Bool.false_eq_true, if_false]

/-- **C4, witness** for the amended theorem: the fully degraded run on the
concrete prepared-data file still produces the success envelope. -/
theorem c4_orquestador_witness :
    analizar_estado_financiero defaultSettings envTodoFalla fsEjemplo (.ok ()) "T" "s1" =
      PyVal.dict
        [("success", .bool true),
         ("reporte_final", PyVal.dict
           [("session_id", .str "s1"),
            ("empresa", .dict [("nombre", .str "Acme"), ("sector", .str "Comercio")]),
            ("fecha_analisis", .str "T"),
            ("analisis_detallado", .dict
              [("liquidez", analizarCategoriaNucleo descLiquidez "T" (.raised "x")),
               ("solvencia", analizarCategoriaNucleo descSolvencia "T" (.raised "x")),
               ("rentabilidad", analizarCategoriaNucleo descRentabilidad "T" (.raised "x")),
               ("eficiencia", analizarCategoriaNucleo descEficiencia "T" (.raised "x")),
               ("sectorial", analizarCategoriaNucleo descSectorial "T" (.raised "x"))]),
            ("calificacion_riesgo",
             generar_calificacion_riesgo defaultSettings (.raised "x")),
            ("recomendaciones", generar_recomendaciones (.raised "x")),
            ("perfil_aprobador", perfilPorNivel (.str "INTERMEDIO")),
            ("resumen_ejecutivo",
             .str (generar_resumen_ejecutivo (.raised "x")))]),
         ("siguiente_paso", .str "generar_documento")] :=
  c4_orquestador_amended defaultSettings envTodoFalla fsEjemplo (.ok ()) "T" "s1"
    (PyVal.dict [("empresa", .dict [("nombre", .str "Acme"), ("sector", .str "Comercio")]),
                 ("contenido_extraido", .str "BALANCE")])
    (PyVal.dict [("nombre", .str "Acme"), ("sector", .str "Comercio")])
    (PyVal.str "INTERMEDIO")
    rfl rfl rfl
    ⟨⟨PyVal.dict [("nombre", .str "Acme"), ("sector", .str "Comercio")], rfl,
      ⟨PyVal.str "Acme", rfl⟩, ⟨PyVal.str "Comercio", rfl⟩⟩,
     ⟨"BALANCE", rfl⟩⟩
    rfl rfl

/-- Replacing the entry for `sid` in the session list is visible to a
subsequent lookup, provided `sid` was present. -/
lemma buscarSesion_reemplaza (l : List (String × Sesion)) (sid : String) (x y : Sesion)
    (h : buscarSesion sid l = some y) :
    buscarSesion sid (reemplazaSesion sid x l) = some x := by
  induction l with
  | nil => simp [buscarSesion] at h
  | cons hd tl ih =>
    obtain ⟨k0, s0⟩ := hd
    by_cases hk : k0 = sid
    · simp [reemplazaSesion, buscarSesion, hk]
    · simp only [reemplazaSesion, if_neg hk]
      simp only [buscarSesion, if_neg hk] at h ⊢
      exact ih h

/-! ## C10 — preparing analysis data -/

/-- **C10** (confirmed).  `preparar_datos_para_analisis`: (a) an unknown
session id returns an error dict with the state untouched; (b) so does a
session whose `progreso` is not exactly `"archivo_procesado"`; (c) if the
write of `{session_id}_datos_analisis.json` raises, an error dict is
returned and the state — in particular the session's `progreso` — is still
untouched, i.e. the file write precedes the `progreso` update; (d) on
success the file is recorded under `INPUT_DIR/{session_id}_datos_analisis.json`
and the session advances to `"datos_preparados"`. -/
theorem c10_preparar_datos :
    (∀ (cfg : Settings) (st : SecretariaState) (sid : String)
       (ext : Except String String) (wr : Except String Unit) (now : String),
       buscarSesion sid st.session_data = Option.none →
       preparar_datos_para_analisis cfg st sid ext wr now =
         (.dict [("error", .str "Sesión no encontrada")], st))
  ∧ (∀ (cfg : Settings) (st : SecretariaState) (sid : String) (ses : Sesion)
       (ext : Except String String) (wr : Except String Unit) (now : String),
       buscarSesion sid st.session_data = some ses →
       ses.progreso ≠ "archivo_procesado" →
       preparar_datos_para_analisis cfg st sid ext wr now =
         (.dict [("error", .str "Proceso incompleto. Falta información o archivo.")], st))
  ∧ (∀ (cfg : Settings) (st : SecretariaState) (sid : String) (ses : Sesion)
       (a : PyVal) (resto : List PyVal) (ruta : PyVal) (contenido e now : String)
       (nom sec : PyVal),
       buscarSesion sid st.session_data = some ses →
       ses.progreso = "archivo_procesado" →
       ses.archivos = a :: resto →
       pyGetItem a "path_guardado" = .ok ruta →
       ses.empresa.getKey? "nombre" = some nom →
       ses.empresa.getKey? "sector" = some sec →
       preparar_datos_para_analisis cfg st sid (.ok contenido) (.error e) now =
         (.dict [("error", .str ("Error preparando datos: " ++ e))], st))
  ∧ (∀ (cfg : Settings) (st : SecretariaState) (sid : String) (ses : Sesion)
       (a : PyVal) (resto : List PyVal) (ruta : PyVal) (contenido now : String)
       (nom sec : PyVal),
       buscarSesion sid st.session_data = some ses →
       ses.progreso = "archivo_procesado" →
       ses.archivos = a :: resto →
       pyGetItem a "path_guardado" = .ok ruta →
       ses.empresa.getKey? "nombre" = some nom →
       ses.empresa.getKey? "sector" = some sec →
       ∃ (salida : PyVal) (st2 : SecretariaState) (datos : PyVal),
         preparar_datos_para_analisis cfg st sid (.ok contenido) (.ok ()) now =
           (salida, st2) ∧
         salida.getKey? "success" = some (.bool true) ∧
         st2.archivos_entrada =
           (cfg.INPUT_DIR ++ "/" ++ sid ++ "_datos_analisis.json", datos)
             :: st.archivos_entrada ∧
         buscarSesion sid st2.session_data =
           some ⟨"datos_preparados", ses.empresa, ses.archivos,
                 some (cfg.INPUT_DIR ++ "/" ++ sid ++ "_datos_analisis.json")⟩) := by
  refine ⟨?_, ?_, ?_, ?_⟩
  · intro cfg st sid ext wr now h
    simp [preparar_datos_para_analisis, h]
  · intro cfg st sid ses ext wr now h hp
    simp [preparar_datos_para_analisis, h, hp]
  · intro cfg st sid ses a resto ruta contenido e now nom sec h hp ha hruta hnom hsec
    have h1 := pyGetItem_of_getKeyEq ses.empresa "nombre" nom hnom
    have h2 := pyGetItem_of_getKeyEq ses.empresa "sector" sec hsec
    simp [preparar_datos_para_analisis, h, hp, ha, hruta, h1, h2,
      generar_prompt_contexto, bind, Except.bind, pure, Except.pure]
  · intro cfg st sid ses a resto ruta contenido now nom sec h hp ha hruta hnom hsec
    have h1 := pyGetItem_of_getKeyEq ses.empresa "nombre" nom hnom
    have h2 := pyGetItem_of_getKeyEq ses.empresa "sector" sec hsec
    have hbody : preparar_datos_para_analisis cfg st sid (.ok contenido) (.ok ()) now =
        (PyVal.dict
          [("success", .bool true),
           ("mensaje", .str "¡Perfecto! He preparado todos los datos. Ahora nuestro Analista Senior se encargará del análisis financiero."),
           ("datos_analisis", PyVal.dict
             [("session_id", .str sid),
              ("empresa", ses.empresa),
              ("archivo_financiero", a),
              ("contenido_extraido", .str contenido),
              ("prompt_contexto", .str
                ("ANÁLISIS FINANCIERO REQUERIDO | Nombre: " ++ pyStr nom ++
                 " | Sector: " ++ pyStr sec ++ " | Fecha de análisis: " ++ now ++
                 " | DOCUMENTO FINANCIERO: " ++ String.mk (contenido.data.take 2000) ++ "...")),
              ("fecha_preparacion", .str now),
              ("estado", .str "listo_para_analisis")]),
           ("siguiente_paso", .str "enviar_a_analista")],
         ⟨reemplazaSesion sid
            ⟨"datos_preparados", ses.empresa, ses.archivos,
             some (cfg.INPUT_DIR ++ "/" ++ sid ++ "_datos_analisis.json")⟩
            st.session_data,
          (cfg.INPUT_DIR ++ "/" ++ sid ++ "_datos_analisis.json", PyVal.dict
             [("session_id", .str sid),
              ("empresa", ses.empresa),
              ("archivo_financiero", a),
              ("contenido_extraido", .str contenido),
              ("prompt_contexto", .str
                ("ANÁLISIS FINANCIERO REQUERIDO | Nombre: " ++ pyStr nom ++
                 " | Sector: " ++ pyStr sec ++ " | Fecha de análisis: " ++ now ++
                 " | DOCUMENTO FINANCIERO: " ++ String.mk (contenido.data.take 2000) ++ "...")),
              ("fecha_preparacion", .str now),
              ("estado", .str "listo_para_analisis")]) :: st.archivos_entrada⟩) := by
      simp [preparar_datos_para_analisis, h, hp, ha, hruta, h1, h2,
        generar_prompt_contexto, bind, Except.bind, pure, Except.pure]
    exact ⟨_, _, _, hbody, rfl, rfl,
      buscarSesion_reemplaza st.session_data sid _ ses h⟩

/-- **C10, witness**: the unknown-session branch on the empty store. -/
theorem c10_preparar_datos_witness :
    preparar_datos_para_analisis defaultSettings ⟨[], []⟩ "s1" (.ok "X") (.ok ()) "T" =
      (.dict [("error", .str "Sesión no encontrada")], (⟨[], []⟩ : SecretariaState)) :=
  c10_preparar_datos.1 defaultSettings ⟨[], []⟩ "s1" (.ok "X") (.ok ()) "T" rfl

end YaTeApruebo
